import Mathlib

/-!
Shallow embedding of the daggor real-time battlemap session server
(`src/server.js` together with `src/lib/defaultBattlemap.js`), and proofs
of the specification's claims about it.

Modelling conventions:
* JS numbers are modelled as rationals (`ℚ`); `NaN`/float artefacts are out
  of scope of the embedding.
* A JS field that may be absent, `null`, or of the wrong dynamic type is
  modelled as an `Option`: `none` stands for "absent / null / not of the
  type the code's `typeof`/`Array.isArray` test accepts".
* JS `Map`s are modelled as association lists preserving insertion order,
  with `Map.set` replacing in place and `Map.delete` removing the key.
* Randomness (`randomUUID`, the random colour palette) is modelled by
  passing the generated value as an explicit argument.
-/

namespace Daggor

/-- A position object `{x, y}` in image-percentage space. -/
structure Pos where
  x : ℚ
  y : ℚ
  deriving Repr, DecidableEq

/-- JS `String.prototype.trim()`: strip leading and trailing whitespace
(implemented by structural recursion so that it evaluates). -/
def jsTrim (s : String) : String :=
  ⟨((s.data.dropWhile Char.isWhitespace).reverse.dropWhile
      Char.isWhitespace).reverse⟩

/-- JS truthiness of a nullable string: `null`/`undefined` and `""` are falsy. -/
def jsFalsyStr : Option String → Bool
  | none => true
  | some s => s = ""

/-- `clampValue` / `clamp` from `server.js`:
`(value, min, max) => Math.min(Math.max(value, min), max)`. -/
def clampValue (value mn mx : ℚ) : ℚ := min (max value mn) mx

/-! ### Association-list model of a JS `Map` (insertion ordered). -/

/-- `Map.get`, as ordered association-list lookup. -/
def alGet {α : Type} (m : List (String × α)) (k : String) : Option α :=
  (m.find? (fun e => e.1 = k)).map (·.2)

/-- `Map.has`. -/
def alHas {α : Type} (m : List (String × α)) (k : String) : Bool :=
  (alGet m k).isSome

/-- `Map.set`: replace in place if the key is present, else append. -/
def alSet {α : Type} (m : List (String × α)) (k : String) (v : α) :
    List (String × α) :=
  if alHas m k then m.map (fun e => if e.1 = k then (k, v) else e)
  else m ++ [(k, v)]

/-- `Map.delete` (on a map with unique keys). -/
def alDelete {α : Type} (m : List (String × α)) (k : String) :
    List (String × α) :=
  m.filter (fun e => e.1 ≠ k)

/-- The keys of the association list, in insertion order. -/
def alKeys {α : Type} (m : List (String × α)) : List String :=
  m.map Prod.fst

/-! ### Covers -/

/-- The dynamic payload of a cover add/update request: each field may be
missing or non-numeric (`none`). -/
structure CoverInput where
  id : String
  x : Option ℚ := none
  y : Option ℚ := none
  width : Option ℚ := none
  height : Option ℚ := none
  color : Option String := none
  deriving Repr, DecidableEq

/-- A sanitized cover as stored in session state. -/
structure Cover where
  id : String
  x : ℚ
  y : ℚ
  width : ℚ
  height : ℚ
  color : String
  deriving Repr, DecidableEq

/-- `sanitizeCover` from `server.js` lines 104–118: clamp `width`/`height`
into `[0,100]`, then clamp `x` into `[0, 100-width]` and `y` into
`[0, 100-height]`; default missing numeric fields to `0` and blank colours
to `"#808080"`. -/
def sanitizeCover (input : CoverInput) : Cover :=
  let width := clampValue (match input.width with | some w => w | none => 0) 0 100
  let height := clampValue (match input.height with | some h => h | none => 0) 0 100
  let maxX := 100 - width
  let maxY := 100 - height
  { id := input.id
    width := width
    height := height
    x := clampValue (match input.x with | some x => x | none => 0) 0 maxX
    y := clampValue (match input.y with | some y => y | none => 0) 0 maxY
    color := match input.color with
      | some c => if jsTrim c ≠ "" then c else "#808080"
      | none => "#808080" }

/-! ### Grid data (`src/lib/defaultBattlemap.js`, `sanitizeGridData`) -/

/-- Grid data as stored: line positions plus source image dimensions. -/
structure GridData where
  verticalLines : List ℚ
  horizontalLines : List ℚ
  imageWidth : ℚ
  imageHeight : ℚ
  deriving Repr, DecidableEq

/-- `generateGridLines` from `defaultBattlemap.js`: the loop
`for (value = 0; value <= dimension; value += step) lines.push(value)`,
for natural `dimension` and positive natural `step`, produces the
multiples of `step` up to `dimension`. -/
def generateGridLines (dimension step : ℕ) : List ℚ :=
  (List.range (dimension / step + 1)).map (fun i => ((i * step : ℕ) : ℚ))

/-- `createDefaultGridData` from `defaultBattlemap.js`: lines every 5
units across a 100×100 image. -/
def createDefaultGridData : GridData :=
  { verticalLines := generateGridLines 100 5
    horizontalLines := generateGridLines 100 5
    imageWidth := 100
    imageHeight := 100 }

/-- The dynamic payload of a grid-data update: a line list is `none` when
the field is absent or not an array, a dimension is `none` when absent or
non-numeric. -/
structure GridInput where
  verticalLines : Option (List ℚ) := none
  horizontalLines : Option (List ℚ) := none
  imageWidth : Option ℚ := none
  imageHeight : Option ℚ := none
  deriving Repr, DecidableEq

/-- `sanitizeGridData` from `server.js` lines 67–98: non-object input gives
the default grid; otherwise each missing/non-array/empty line list and each
non-numeric/non-positive dimension is replaced by its default independently. -/
def sanitizeGridData (input : Option GridInput) : GridData :=
  let fallback := createDefaultGridData
  match input with
  | none => fallback
  | some candidate =>
    { verticalLines :=
        match candidate.verticalLines with
        | some l => if l.length > 0 then l else fallback.verticalLines
        | none => fallback.verticalLines
      horizontalLines :=
        match candidate.horizontalLines with
        | some l => if l.length > 0 then l else fallback.horizontalLines
        | none => fallback.horizontalLines
      imageWidth :=
        match candidate.imageWidth with
        | some w => if w > 0 then w else fallback.imageWidth
        | none => fallback.imageWidth
      imageHeight :=
        match candidate.imageHeight with
        | some h => if h > 0 then h else fallback.imageHeight
        | none => fallback.imageHeight }

/-- `cloneGridData()` with no argument clones the module default, which is
`createDefaultGridData()` passed through `sanitizeGridData`. -/
def cloneGridData : GridData :=
  sanitizeGridData (some
    { verticalLines := some createDefaultGridData.verticalLines
      horizontalLines := some createDefaultGridData.horizontalLines
      imageWidth := some createDefaultGridData.imageWidth
      imageHeight := some createDefaultGridData.imageHeight })

/-! ### Battlemaps, floors, covers in session state -/

/-- A floor (`battlemap_images` row / in-memory image object). -/
structure Floor where
  id : String
  name : String
  mapPath : Option String
  sortIndex : ℚ
  deriving Repr, DecidableEq

/-- A cover entry in a battlemap's `covers` map: the sanitized cover plus
the private `_imageId` marker (present only in the floor-scoped schema). -/
structure CoverEntry where
  cover : Cover
  imageId : Option String := none
  deriving Repr, DecidableEq

/-- An in-memory battlemap. -/
structure Battlemap where
  id : String
  name : String
  mapPath : Option String
  images : List Floor
  activeImageId : Option String
  gridScale : ℚ
  gridOffsetX : ℚ
  gridOffsetY : ℚ
  gridData : GridData
  covers : List (String × CoverEntry)
  deriving Repr, DecidableEq

/-- The module-level `battlemapState`. -/
structure BattlemapState where
  order : List String
  maps : List (String × Battlemap)
  activeBattlemapId : Option String
  deriving Repr, DecidableEq

/-- Schema capability flags probed at startup. -/
structure SchemaFlags where
  supportsBattlemapImages : Bool
  supportsBattlemapCoverImageId : Bool
  deriving Repr, DecidableEq

/-- `DEFAULT_BATTLEMAP_MAP_PATH` from `defaultBattlemap.js`. -/
def DEFAULT_BATTLEMAP_MAP_PATH : String := "/maps/Training Ground.jpg"

/-- `getDefaultBattlemapId`: the first battlemap in order whose `mapPath`
is the default map path. -/
def getDefaultBattlemapId (st : BattlemapState) : Option String :=
  st.order.find? (fun id =>
    match alGet st.maps id with
    | some bm => bm.mapPath = some DEFAULT_BATTLEMAP_MAP_PATH
    | none => false)

/-- `ensureActiveBattlemap`: keep the active battlemap if it is truthy and
present in the map, otherwise fall back to the default battlemap, the first
in order, or `null`. -/
def ensureActiveBattlemap (st : BattlemapState) : BattlemapState :=
  if (!jsFalsyStr st.activeBattlemapId &&
      (match st.activeBattlemapId with
       | some a => alHas st.maps a
       | none => false)) then st
  else
    { st with activeBattlemapId :=
        match getDefaultBattlemapId st with
        | some d => some d
        | none => st.order.head? }

/-- `getBattlemapImageById`: `images.find(img => img.id === imageId) ?? null`
(called with a possibly-null id). -/
def getBattlemapImageById (bm : Battlemap) (imageId : Option String) :
    Option Floor :=
  bm.images.find? (fun img => some img.id = imageId)

/-- `ensureBattlemapHasAtLeastOneImage` (`server.js` lines 556–584).
In legacy mode it does nothing; with a non-empty floor list it backfills a
falsy `activeImageId` and re-syncs `mapPath` from the active floor; with an
empty floor list it creates floor "Floor 1" carrying the legacy `mapPath`
(the fresh UUID is passed as `freshId`). The background persistence write
is not modelled. -/
def ensureBattlemapHasAtLeastOneImage (supportsImages : Bool)
    (freshId : String) (bm : Battlemap) : Battlemap :=
  if ¬ supportsImages then bm
  else if bm.images ≠ [] then
    let activeId :=
      if jsFalsyStr bm.activeImageId then (bm.images.head?).map (·.id)
      else bm.activeImageId
    let active :=
      match getBattlemapImageById bm activeId with
      | some img => some img
      | none => bm.images.head?
    { bm with
      activeImageId := activeId
      mapPath :=
        match active with
        | some img =>
          (match img.mapPath with
           | some p => some p
           | none => bm.mapPath)
        | none => bm.mapPath }
  else
    let image : Floor :=
      { id := freshId, name := "Floor 1", mapPath := bm.mapPath, sortIndex := 0 }
    { bm with images := [image], activeImageId := some freshId }

/-- `findCoverEntry` (`server.js` lines 586–612): in the floor-scoped
schema, look the cover up under the composite `imageId:coverId` key for the
requested (or active) floor, with a fallback scan on the stored `id` and
`_imageId` fields; in the legacy schema, look the cover up directly. -/
def findCoverEntry (supportsCoverImageId : Bool) (bm : Battlemap)
    (coverId : String) (imageId : Option String) :
    Option (String × CoverEntry × Option String) :=
  if supportsCoverImageId then
    let effectiveImageId :=
      match imageId with
      | some s => some s
      | none => bm.activeImageId
    match (if jsFalsyStr effectiveImageId then none else effectiveImageId) with
    | some eid =>
      let key := eid ++ ":" ++ coverId
      match alGet bm.covers key with
      | some entry => some (key, entry, some eid)
      | none =>
        match bm.covers.find? (fun e =>
            e.2.cover.id = coverId ∧ e.2.imageId = some eid) with
        | some e => some (e.1, e.2, some eid)
        | none => none
    | none => none
  else
    match alGet bm.covers coverId with
    | some entry => some (coverId, entry, none)
    | none => none

/-! ### Users and the mutator gate -/

/-- The per-connection `userData` object built by `initializeUser`. -/
structure UserData where
  id : String
  persistentUserId : String
  color : String
  position : Option Pos
  size : String
  isDisplay : Bool
  allowBattlemapMutations : Bool
  suppressPresence : Bool
  imageSrc : Option String := none
  deriving Repr, DecidableEq

/-- `ensureBattlemapMutator`: the gate passes iff `userData` exists and has
`allowBattlemapMutations` set. -/
def ensureBattlemapMutator (conn : Option UserData) : Bool :=
  match conn with
  | none => false
  | some u => u.allowBattlemapMutations

/-- Acknowledgement sent back to the caller of a mutation:
`{ok:true}` with an optional minted id, or `{ok:false, error}`. -/
inductive Ack where
  | ok (mintedId : Option String)
  | err (error : String)
  deriving Repr, DecidableEq

/-- `getBattlemapOrRespond`: reject a falsy or non-string battlemap id,
then look the battlemap up. -/
def getBattlemapOrRespond (battlemapId : Option String)
    (st : BattlemapState) : Except String Battlemap :=
  match battlemapId with
  | none => .error "invalid-battlemap-id"
  | some s =>
    if s = "" then .error "invalid-battlemap-id"
    else
      match alGet st.maps s with
      | none => .error "battlemap-not-found"
      | some bm => .ok bm

/-- `a || b || null` on nullable strings (JS truthiness coalescing), as used
for `payload?.battlemapImageId || payload?.imageId || null`. -/
def coalesceImageId (a b : Option String) : Option String :=
  if ¬ jsFalsyStr a then a else if ¬ jsFalsyStr b then b else none

/-- JS `typeof v === 'string' && v.trim() !== '' ? v.trim() : default`. -/
def trimmedOr (v : Option String) (dflt : String) : String :=
  match v with
  | some s => if jsTrim s ≠ "" then jsTrim s else dflt
  | none => dflt

/-- JS `typeof v === 'string' && v.trim() !== '' ? v.trim() : null`. -/
def trimmedOrNull (v : Option String) : Option String :=
  match v with
  | some s => if jsTrim s ≠ "" then some (jsTrim s) else none
  | none => none

/-- Is `v` a string with non-blank trim? (the guard JS applies before using
an id verbatim, without trimming it). -/
def isNonBlankStr (v : Option String) : Bool :=
  match v with
  | some s => jsTrim s ≠ ""
  | none => false

/-! ### Wire payloads for battlemap mutations

A raw numeric field is `Option (Option ℚ)`: the outer `none` is an absent
field, `some none` a present field that is not a number, `some (some q)` a
number. Raw string fields are analogous. -/

/-- The raw `cover` / `updates` object of an add/update-cover request. -/
structure RawCover where
  id : Option String := none
  x : Option (Option ℚ) := none
  y : Option (Option ℚ) := none
  width : Option (Option ℚ) := none
  height : Option (Option ℚ) := none
  color : Option (Option String) := none
  deriving Repr, DecidableEq

/-- Collapse a raw field for `sanitizeCover`'s `typeof === 'number'` test:
absent and present-but-non-numeric both fail it. -/
def rawNum (v : Option (Option ℚ)) : Option ℚ :=
  match v with
  | some (some q) => some q
  | _ => none

/-- Collapse a raw colour field for `sanitizeCover`'s string test. -/
def rawStr (v : Option (Option String)) : Option String :=
  match v with
  | some (some s) => some s
  | _ => none

/-- Build `sanitizeCover`'s input from a raw cover object and the resolved
cover id (`{ ...coverInput, id: coverId }`). -/
def coverInputOfRaw (raw : RawCover) (coverId : String) : CoverInput :=
  { id := coverId
    x := rawNum raw.x
    y := rawNum raw.y
    width := rawNum raw.width
    height := rawNum raw.height
    color := rawStr raw.color }

/-- `{ ...existing, ...updates, id: coverId }` fed to `sanitizeCover` in the
update-cover handler: a field present in `updates` (even with a non-numeric
value) overrides the stored one, an absent field keeps it. -/
def mergedCoverInput (existing : Cover) (updates : RawCover)
    (coverId : String) : CoverInput :=
  { id := coverId
    x := match updates.x with
      | none => some existing.x
      | some v => v
    y := match updates.y with
      | none => some existing.y
      | some v => v
    width := match updates.width with
      | none => some existing.width
      | some v => v
    height := match updates.height with
      | none => some existing.height
      | some v => v
    color := match updates.color with
      | none => some existing.color
      | some v => v }

/-! ### Serialization -/

/-- `getBattlemapCoversForActiveImage`: with floor-scoped covers and a
truthy active floor, expose only that floor's covers (plus unmarked ones),
stripping the private marker; otherwise expose all covers. -/
def getBattlemapCoversForActiveImage (supportsCoverImageId : Bool)
    (bm : Battlemap) : List Cover :=
  if supportsCoverImageId ∧ ¬ jsFalsyStr bm.activeImageId then
    (bm.covers.filter (fun e =>
      e.2.imageId = bm.activeImageId ∨ jsFalsyStr e.2.imageId)).map
      (fun e => e.2.cover)
  else
    bm.covers.map (fun e => e.2.cover)

/-- The full battlemap snapshot sent to clients (`serializeBattlemap`). -/
structure SerializedBattlemap where
  id : String
  name : String
  mapPath : Option String
  images : List Floor
  activeImageId : Option String
  gridScale : ℚ
  gridOffsetX : ℚ
  gridOffsetY : ℚ
  gridData : GridData
  covers : List Cover
  deriving Repr, DecidableEq

/-- `serializeBattlemap` from `server.js` lines 148–159. -/
def serializeBattlemap (supportsCoverImageId : Bool) (bm : Battlemap) :
    SerializedBattlemap :=
  { id := bm.id
    name := bm.name
    mapPath := bm.mapPath
    images := bm.images
    activeImageId := bm.activeImageId
    gridScale := bm.gridScale
    gridOffsetX := bm.gridOffsetX
    gridOffsetY := bm.gridOffsetY
    gridData := bm.gridData
    covers := getBattlemapCoversForActiveImage supportsCoverImageId bm }

/-! ### Battlemap mutation handlers

Each handler takes the caller's `userData` (for the mutator gate), the
schema flags, any freshly generated ids, the payload, and the state, and
returns the acknowledgement together with the new state. Broadcasts and
background persistence are not modelled. -/

/-- Helper: write a (possibly mutated) battlemap back into the state, as the
in-place JS mutation of the object aliased from `battlemapState.maps` does. -/
def putBattlemap (st : BattlemapState) (bm : Battlemap) : BattlemapState :=
  { st with maps := alSet st.maps bm.id bm }

/-- `battlemap:get` handler (`server.js` lines 816–825). It can mutate the
state through `ensureBattlemapHasAtLeastOneImage`'s backfill. -/
def battlemapGet (flags : SchemaFlags) (freshId : String)
    (st : BattlemapState) (battlemapId : Option String) :
    Except String SerializedBattlemap × BattlemapState :=
  match getBattlemapOrRespond battlemapId st with
  | .error e => (.error e, st)
  | .ok bm =>
    let bm' := ensureBattlemapHasAtLeastOneImage
      flags.supportsBattlemapImages freshId bm
    (.ok (serializeBattlemap flags.supportsBattlemapCoverImageId bm'),
      putBattlemap st bm')

/-- Payload of `battlemap:create`. -/
structure CreatePayload where
  name : Option String := none
  mapPath : Option String := none
  deriving Repr, DecidableEq

/-- `battlemap:create` handler (`server.js` lines 827–891). -/
def battlemapCreate (conn : Option UserData) (flags : SchemaFlags)
    (battlemapId initialImageId : String) (st : BattlemapState)
    (payload : Option CreatePayload) : Ack × BattlemapState :=
  if ¬ ensureBattlemapMutator conn then (.err "forbidden", st)
  else
    let trimmedName := trimmedOr (payload.bind (·.name)) "Untitled Battlemap"
    let sanitizedPath := trimmedOrNull (payload.bind (·.mapPath))
    let newBattlemap : Battlemap :=
      { id := battlemapId
        name := trimmedName
        mapPath := sanitizedPath
        images :=
          if flags.supportsBattlemapImages then
            [{ id := initialImageId, name := "Floor 1",
               mapPath := sanitizedPath, sortIndex := 0 }]
          else []
        activeImageId :=
          if flags.supportsBattlemapImages then some initialImageId else none
        gridScale := 1
        gridOffsetX := 0
        gridOffsetY := 0
        gridData := cloneGridData
        covers := [] }
    let st' : BattlemapState :=
      { st with
        order := st.order ++ [battlemapId]
        maps := alSet st.maps battlemapId newBattlemap }
    let st'' :=
      if jsFalsyStr st'.activeBattlemapId then
        { st' with activeBattlemapId := some battlemapId }
      else st'
    (.ok (some battlemapId), st'')

/-- `battlemap:set-active` handler (`server.js` lines 1082–1100). -/
def battlemapSetActive (conn : Option UserData) (st : BattlemapState)
    (battlemapId : Option String) : Ack × BattlemapState :=
  if ¬ ensureBattlemapMutator conn then (.err "forbidden", st)
  else if (jsFalsyStr battlemapId ||
      !(match battlemapId with
        | some s => alHas st.maps s
        | none => false)) then
    (.err "battlemap-not-found", st)
  else
    (.ok none, { st with activeBattlemapId := battlemapId })

/-- Payload of `battlemap:rename`. -/
structure RenamePayload where
  battlemapId : Option String := none
  name : Option String := none
  deriving Repr, DecidableEq

/-- `battlemap:rename` handler (`server.js` lines 1102–1125). -/
def battlemapRename (conn : Option UserData) (st : BattlemapState)
    (payload : Option RenamePayload) : Ack × BattlemapState :=
  if ¬ ensureBattlemapMutator conn then (.err "forbidden", st)
  else
    match getBattlemapOrRespond (payload.bind (·.battlemapId)) st with
    | .error e => (.err e, st)
    | .ok bm =>
      let trimmedName := trimmedOr (payload.bind (·.name)) "Untitled Battlemap"
      (.ok none, putBattlemap st { bm with name := trimmedName })

/-- The element-wise validation loop of `battlemap:reorder`: every id must
be a string naming an existing battlemap and not previously seen. -/
def reorderIdsValid (maps : List (String × Battlemap)) :
    List (Option String) → List String → Bool
  | [], _ => true
  | none :: _, _ => false
  | some id :: rest, seen =>
    if ¬ alHas maps id ∨ seen.contains id then false
    else reorderIdsValid maps rest (id :: seen)

/-- `battlemap:reorder` handler (`server.js` lines 1127–1153). The payload's
`orderedIds` is `none` when absent or not an array; a list element is `none`
when it is not a string. -/
def battlemapReorder (conn : Option UserData) (st : BattlemapState)
    (orderedIds : Option (List (Option String))) : Ack × BattlemapState :=
  if ¬ ensureBattlemapMutator conn then (.err "forbidden", st)
  else
    match orderedIds with
    | none => (.err "invalid-order", st)
    | some ids =>
      if ids.length ≠ st.order.length then (.err "invalid-order", st)
      else if ¬ reorderIdsValid st.maps ids [] then (.err "invalid-order", st)
      else (.ok none, { st with order := ids.filterMap (fun x => x) })

/-- `battlemap:delete` handler (`server.js` lines 1274–1303). -/
def battlemapDelete (conn : Option UserData) (st : BattlemapState)
    (battlemapId : Option String) : Ack × BattlemapState :=
  if ¬ ensureBattlemapMutator conn then (.err "forbidden", st)
  else
    match getBattlemapOrRespond battlemapId st with
    | .error e => (.err e, st)
    | .ok bm =>
      let st' : BattlemapState :=
        { st with
          maps := alDelete st.maps bm.id
          order := st.order.filter (fun id => id ≠ bm.id) }
      if st.activeBattlemapId = some bm.id then
        (.ok none, ensureActiveBattlemap st')
      else (.ok none, st')

/-- Payload of `battlemap:update-grid-data`; `gridData` is `none` when
absent or not an object. -/
structure UpdateGridDataPayload where
  battlemapId : Option String := none
  gridData : Option GridInput := none
  deriving Repr, DecidableEq

/-- `battlemap:update-grid-data` handler (`server.js` lines 1255–1272). -/
def battlemapUpdateGridData (conn : Option UserData) (st : BattlemapState)
    (payload : Option UpdateGridDataPayload) : Ack × BattlemapState :=
  if ¬ ensureBattlemapMutator conn then (.err "forbidden", st)
  else
    match getBattlemapOrRespond (payload.bind (·.battlemapId)) st with
    | .error e => (.err e, st)
    | .ok bm =>
      (.ok none, putBattlemap st
        { bm with gridData := sanitizeGridData (payload.bind (·.gridData)) })

/-- Payload of `battlemap:add-cover`. -/
structure AddCoverPayload where
  battlemapId : Option String := none
  battlemapImageId : Option String := none
  imageId : Option String := none
  cover : Option RawCover := none
  deriving Repr, DecidableEq

/-- `battlemap:add-cover` handler (`server.js` lines 1305–1350). -/
def battlemapAddCover (conn : Option UserData) (flags : SchemaFlags)
    (freshFloorId freshCoverId : String) (st : BattlemapState)
    (payload : Option AddCoverPayload) : Ack × BattlemapState :=
  if ¬ ensureBattlemapMutator conn then (.err "forbidden", st)
  else
    match getBattlemapOrRespond (payload.bind (·.battlemapId)) st with
    | .error e => (.err e, st)
    | .ok bm0 =>
      let requestedImageId := coalesceImageId
        (payload.bind (·.battlemapImageId)) (payload.bind (·.imageId))
      let bm :=
        if flags.supportsBattlemapImages then
          ensureBattlemapHasAtLeastOneImage true freshFloorId bm0
        else bm0
      let coverInput := (payload.bind (·.cover)).getD ({} : RawCover)
      let coverId :=
        match coverInput.id with
        | some s => if jsTrim s ≠ "" then s else freshCoverId
        | none => freshCoverId
      let sanitized := sanitizeCover (coverInputOfRaw coverInput coverId)
      let bm' :=
        if flags.supportsBattlemapCoverImageId ∧ ¬ jsFalsyStr bm.activeImageId then
          let effectiveImageId :=
            if isNonBlankStr requestedImageId then requestedImageId.getD ""
            else bm.activeImageId.getD ""
          let key := effectiveImageId ++ ":" ++ sanitized.id
          let entry : CoverEntry :=
            { cover := sanitized, imageId := some effectiveImageId }
          { bm with covers := alSet bm.covers key entry }
        else
          let entry : CoverEntry := { cover := sanitized, imageId := none }
          { bm with covers := alSet bm.covers sanitized.id entry }
      (.ok (some sanitized.id), putBattlemap st bm')

/-- Payload of `battlemap:update-cover`. -/
structure UpdateCoverPayload where
  battlemapId : Option String := none
  coverId : Option String := none
  battlemapImageId : Option String := none
  imageId : Option String := none
  updates : Option RawCover := none
  deriving Repr, DecidableEq

/-- `battlemap:update-cover` handler (`server.js` lines 1352–1383). -/
def battlemapUpdateCover (conn : Option UserData) (flags : SchemaFlags)
    (st : BattlemapState) (payload : Option UpdateCoverPayload) :
    Ack × BattlemapState :=
  if ¬ ensureBattlemapMutator conn then (.err "forbidden", st)
  else
    match getBattlemapOrRespond (payload.bind (·.battlemapId)) st with
    | .error e => (.err e, st)
    | .ok bm =>
      let coverId := payload.bind (·.coverId)
      let requestedImageId := coalesceImageId
        (payload.bind (·.battlemapImageId)) (payload.bind (·.imageId))
      let entry :=
        if jsFalsyStr coverId then none
        else findCoverEntry flags.supportsBattlemapCoverImageId bm
          (coverId.getD "") requestedImageId
      match entry with
      | none => (.err "cover-not-found", st)
      | some (key, existing, entryImageId) =>
        let sanitized := sanitizeCover
          (mergedCoverInput existing.cover
            ((payload.bind (·.updates)).getD ({} : RawCover))
            (coverId.getD ""))
        let bm' :=
          if flags.supportsBattlemapCoverImageId ∧ ¬ jsFalsyStr entryImageId then
            let entry' : CoverEntry :=
              { cover := sanitized, imageId := entryImageId }
            { bm with covers := alSet bm.covers key entry' }
          else
            let entry' : CoverEntry := { cover := sanitized, imageId := none }
            { bm with covers := alSet bm.covers key entry' }
        (.ok none, putBattlemap st bm')

/-- Payload of `battlemap:remove-cover`. -/
structure RemoveCoverPayload where
  battlemapId : Option String := none
  coverId : Option String := none
  battlemapImageId : Option String := none
  imageId : Option String := none
  deriving Repr, DecidableEq

/-- `battlemap:remove-cover` handler (`server.js` lines 1385–1410). -/
def battlemapRemoveCover (conn : Option UserData) (flags : SchemaFlags)
    (st : BattlemapState) (payload : Option RemoveCoverPayload) :
    Ack × BattlemapState :=
  if ¬ ensureBattlemapMutator conn then (.err "forbidden", st)
  else
    match getBattlemapOrRespond (payload.bind (·.battlemapId)) st with
    | .error e => (.err e, st)
    | .ok bm =>
      let coverId := payload.bind (·.coverId)
      let requestedImageId := coalesceImageId
        (payload.bind (·.battlemapImageId)) (payload.bind (·.imageId))
      let entry :=
        if jsFalsyStr coverId then none
        else findCoverEntry flags.supportsBattlemapCoverImageId bm
          (coverId.getD "") requestedImageId
      match entry with
      | none => (.err "cover-not-found", st)
      | some (key, _, _) =>
        (.ok none, putBattlemap st
          { bm with covers := alDelete bm.covers key })

/-- Payload of the floor operations (`battlemap:set-active-image`,
`battlemap:rename-image`, `battlemap:delete-image`, `battlemap:add-image`). -/
structure ImagePayload where
  battlemapId : Option String := none
  imageId : Option String := none
  name : Option String := none
  deriving Repr, DecidableEq

/-- `battlemap:set-active-image` handler (`server.js` lines 893–929). -/
def battlemapSetActiveImage (conn : Option UserData) (flags : SchemaFlags)
    (freshId : String) (st : BattlemapState) (payload : Option ImagePayload) :
    Ack × BattlemapState :=
  if ¬ ensureBattlemapMutator conn then (.err "forbidden", st)
  else if ¬ flags.supportsBattlemapImages then (.err "unsupported", st)
  else
    match getBattlemapOrRespond (payload.bind (·.battlemapId)) st with
    | .error e => (.err e, st)
    | .ok bm0 =>
      let bm := ensureBattlemapHasAtLeastOneImage true freshId bm0
      let imageId := payload.bind (·.imageId)
      if ¬ isNonBlankStr imageId then
        (.err "invalid-image-id", putBattlemap st bm)
      else
        match getBattlemapImageById bm imageId with
        | none => (.err "image-not-found", putBattlemap st bm)
        | some image =>
          (.ok none, putBattlemap st
            { bm with activeImageId := imageId, mapPath := image.mapPath })

/-- `battlemap:add-image` handler (`server.js` lines 931–976). -/
def battlemapAddImage (conn : Option UserData) (flags : SchemaFlags)
    (freshEnsureId freshImageId : String) (st : BattlemapState)
    (payload : Option ImagePayload) : Ack × BattlemapState :=
  if ¬ ensureBattlemapMutator conn then (.err "forbidden", st)
  else if ¬ flags.supportsBattlemapImages then (.err "unsupported", st)
  else
    match getBattlemapOrRespond (payload.bind (·.battlemapId)) st with
    | .error e => (.err e, st)
    | .ok bm0 =>
      let bm := ensureBattlemapHasAtLeastOneImage true freshEnsureId bm0
      let trimmedName := trimmedOr (payload.bind (·.name))
        ("Floor " ++ toString (bm.images.length + 1))
      let image : Floor :=
        { id := freshImageId, name := trimmedName, mapPath := none,
          sortIndex := bm.images.length }
      (.ok (some freshImageId), putBattlemap st
        { bm with
          images := bm.images ++ [image]
          activeImageId := some freshImageId
          mapPath := none })

/-- `battlemap:rename-image` handler (`server.js` lines 978–1019). -/
def battlemapRenameImage (conn : Option UserData) (flags : SchemaFlags)
    (freshId : String) (st : BattlemapState) (payload : Option ImagePayload) :
    Ack × BattlemapState :=
  if ¬ ensureBattlemapMutator conn then (.err "forbidden", st)
  else if ¬ flags.supportsBattlemapImages then (.err "unsupported", st)
  else
    match getBattlemapOrRespond (payload.bind (·.battlemapId)) st with
    | .error e => (.err e, st)
    | .ok bm0 =>
      let bm := ensureBattlemapHasAtLeastOneImage true freshId bm0
      let imageId := payload.bind (·.imageId)
      if ¬ isNonBlankStr imageId then
        (.err "invalid-image-id", putBattlemap st bm)
      else
        let trimmedName := trimmedOr (payload.bind (·.name)) "Floor"
        match getBattlemapImageById bm imageId with
        | none => (.err "image-not-found", putBattlemap st bm)
        | some _ =>
          (.ok none, putBattlemap st
            { bm with images := bm.images.map (fun img =>
                if some img.id = imageId then { img with name := trimmedName }
                else img) })

/-- `battlemap:delete-image` handler (`server.js` lines 1021–1080). -/
def battlemapDeleteImage (conn : Option UserData) (flags : SchemaFlags)
    (freshId : String) (st : BattlemapState) (payload : Option ImagePayload) :
    Ack × BattlemapState :=
  if ¬ ensureBattlemapMutator conn then (.err "forbidden", st)
  else if ¬ flags.supportsBattlemapImages then (.err "unsupported", st)
  else
    match getBattlemapOrRespond (payload.bind (·.battlemapId)) st with
    | .error e => (.err e, st)
    | .ok bm0 =>
      let bm := ensureBattlemapHasAtLeastOneImage true freshId bm0
      let imageId := payload.bind (·.imageId)
      if ¬ isNonBlankStr imageId then
        (.err "invalid-image-id", putBattlemap st bm)
      else
        match getBattlemapImageById bm imageId with
        | none => (.err "image-not-found", putBattlemap st bm)
        | some _ =>
          let remaining := bm.images.filter (fun img => ¬ some img.id = imageId)
          if remaining = [] then
            (.err "cannot-delete-last-image", putBattlemap st bm)
          else
            let bm1 := { bm with images := remaining }
            let bm2 :=
              if flags.supportsBattlemapCoverImageId then
                { bm1 with covers := bm1.covers.filter (fun e =>
                    ¬ e.2.imageId = imageId) }
              else bm1
            let bm3 :=
              if bm2.activeImageId = imageId then
                let nextActiveId := (remaining.head?).map (·.id)
                let nextActive :=
                  match getBattlemapImageById bm2 nextActiveId with
                  | some img => some img
                  | none => remaining.head?
                { bm2 with
                  activeImageId := nextActiveId
                  mapPath := nextActive.bind (·.mapPath) }
              else bm2
            (.ok none, putBattlemap st bm3)

/-- Payload of `battlemap:update-map-path`. -/
structure UpdateMapPathPayload where
  battlemapId : Option String := none
  mapPath : Option String := none
  battlemapImageId : Option String := none
  imageId : Option String := none
  deriving Repr, DecidableEq

/-- `battlemap:update-map-path` handler (`server.js` lines 1155–1220). -/
def battlemapUpdateMapPath (conn : Option UserData) (flags : SchemaFlags)
    (freshId : String) (st : BattlemapState)
    (payload : Option UpdateMapPathPayload) : Ack × BattlemapState :=
  if ¬ ensureBattlemapMutator conn then (.err "forbidden", st)
  else
    match getBattlemapOrRespond (payload.bind (·.battlemapId)) st with
    | .error e => (.err e, st)
    | .ok bm0 =>
      let sanitizedPath := trimmedOrNull (payload.bind (·.mapPath))
      let targetImageId := coalesceImageId
        (payload.bind (·.battlemapImageId)) (payload.bind (·.imageId))
      if flags.supportsBattlemapImages then
        let bm := ensureBattlemapHasAtLeastOneImage true freshId bm0
        let effectiveTargetId :=
          if isNonBlankStr targetImageId then targetImageId
          else
            match bm.activeImageId with
            | some a => some a
            | none => (bm.images.head?).map (·.id)
        let image :=
          if jsFalsyStr effectiveTargetId then none
          else getBattlemapImageById bm effectiveTargetId
        match image with
        | none => (.err "image-not-found", putBattlemap st bm)
        | some img =>
          let bm1 := { bm with images := bm.images.map (fun i =>
              if i.id = img.id then { i with mapPath := sanitizedPath }
              else i) }
          let bm2 :=
            if bm1.activeImageId = some img.id then
              { bm1 with mapPath := sanitizedPath }
            else bm1
          let shouldResetGridData :=
            jsFalsyStr targetImageId ∧ bm2.images.length ≤ 1
          let bm3 :=
            if shouldResetGridData then { bm2 with gridData := cloneGridData }
            else bm2
          (.ok none, putBattlemap st bm3)
      else
        (.ok none, putBattlemap st
          { bm0 with mapPath := sanitizedPath, gridData := cloneGridData })

/-! ### Presence: identification, ghosts, disconnect -/

/-- `VALID_TOKEN_SIZES` from `server.js`. -/
def VALID_TOKEN_SIZES : List String :=
  ["tiny", "small", "medium", "large", "huge", "gargantuan"]

/-- `sanitizeTokenSize`. -/
def sanitizeTokenSize (value : Option String) : String :=
  match value with
  | some s => if VALID_TOKEN_SIZES.contains s then s else "medium"
  | none => "medium"

/-- The colour palette of `getRandomColor`. -/
def COLOR_PALETTE : List String :=
  ["#ef4444", "#3b82f6", "#10b981", "#f59e0b", "#8b5cf6",
   "#ec4899", "#06b6d4", "#84cc16", "#f97316", "#6366f1"]

/-- `v || null` on a nullable string (blank-out a falsy value). -/
def jsStrOrNull (v : Option String) : Option String :=
  if jsFalsyStr v then none else v

/-- A disconnected user retained in `disconnectedUsers` (a Ghost). -/
structure Ghost where
  id : String
  persistentUserId : String
  color : String
  position : Option Pos
  imageSrc : Option String
  size : String
  disconnectedAt : ℕ
  deriving Repr, DecidableEq

/-- The in-memory presence maps. -/
structure PresenceState where
  users : List (String × UserData)
  disconnectedUsers : List (String × Ghost)
  displayModeUsers : List (String × UserData)
  deriving Repr, DecidableEq

/-- `findDisconnectedUser` (`server.js` lines 675–686): primary lookup of
the ghost map by persistent id, then a fallback scan matching the stored
`persistentUserId` field or the fallback key. -/
def findDisconnectedUser (ghosts : List (String × Ghost))
    (persistentId : String) (fallbackId : Option String) :
    Option (String × Ghost) :=
  if persistentId ≠ "" ∧ alHas ghosts persistentId then
    (alGet ghosts persistentId).map (fun g => (persistentId, g))
  else
    ghosts.find? (fun e =>
      e.2.persistentUserId = persistentId ∨
        (¬ jsFalsyStr fallbackId ∧ some e.1 = fallbackId))

/-- The `user-identify` message payload; `persistentUserId` is `none` when
absent or not a string, `allowBattlemapMutations` is `none` when absent or
not a boolean. -/
structure IdentifyData where
  persistentUserId : Option String := none
  isDisplay : Bool := false
  suppressPresence : Bool := false
  allowBattlemapMutations : Option Bool := none
  deriving Repr, DecidableEq

/-- The payload of `user-connected` / `user-joined` / `user-reconnected` /
`user-disconnected` emits. -/
structure UserPayload where
  userId : String
  persistentUserId : String
  color : String
  position : Option Pos
  imageSrc : Option String
  size : String
  deriving Repr, DecidableEq

/-- Which broadcast `initializeUser` sends to the other connections. -/
inductive JoinBroadcast where
  | joined (p : UserPayload)
  | reconnected (p : UserPayload)
  deriving Repr, DecidableEq

/-- The outcome of `initializeUser`. -/
structure InitResult where
  userData : UserData
  state : PresenceState
  connected : Option UserPayload
  broadcast : Option JoinBroadcast
  deriving Repr, DecidableEq

/-- `initializeUser` (`server.js` lines 689–801), on its first invocation
for a connection (`identificationReceived` still false). The random colour
is passed as `freshColor`. -/
def initializeUser (st : PresenceState) (userId : String)
    (freshColor : String) (data : Option IdentifyData) : InitResult :=
  let incomingPersistentId :=
    match data.bind (·.persistentUserId) with
    | some s => if jsTrim s ≠ "" then some s else none
    | none => none
  let persistentUserId :=
    match incomingPersistentId with
    | some s => s
    | none => userId
  let ghostMatch := findDisconnectedUser st.disconnectedUsers persistentUserId
    (if incomingPersistentId.isSome then none else some userId)
  let restored := ghostMatch.map (·.2)
  let ghosts' :=
    match ghostMatch with
    | some (k, _) => alDelete st.disconnectedUsers k
    | none => st.disconnectedUsers
  let color :=
    match restored with
    | some g => if g.color ≠ "" then g.color else freshColor
    | none => freshColor
  let position : Option Pos :=
    some (match restored with
      | some g => g.position.getD { x := 50, y := 50 }
      | none => { x := 50, y := 50 })
  let size := sanitizeTokenSize (restored.map (·.size))
  let isDisplay := (data.map (·.isDisplay)).getD false
  let suppressPresence := (data.map (·.suppressPresence)).getD false
  let allowBattlemapMutations :=
    match data.bind (·.allowBattlemapMutations) with
    | some b => b
    | none => isDisplay
  let userData : UserData :=
    { id := userId
      persistentUserId := persistentUserId
      color := color
      position := position
      size := size
      isDisplay := isDisplay
      allowBattlemapMutations := allowBattlemapMutations
      suppressPresence := suppressPresence
      imageSrc := none }
  if suppressPresence then
    { userData := userData
      state := { st with disconnectedUsers := ghosts' }
      connected := none
      broadcast := none }
  else
    let users' :=
      if ¬ isDisplay then alSet st.users userId userData else st.users
    let dmu' :=
      if isDisplay then alSet st.displayModeUsers userId userData
      else st.displayModeUsers
    let payload : UserPayload :=
      { userId := userId
        persistentUserId := persistentUserId
        color := color
        position := position
        imageSrc := jsStrOrNull userData.imageSrc
        size := size }
    { userData := userData
      state :=
        { users := users'
          disconnectedUsers := ghosts'
          displayModeUsers := dmu' }
      connected := some payload
      broadcast :=
        if ¬ isDisplay then
          some (match restored with
            | none => .joined payload
            | some _ => .reconnected payload)
        else none }

/-- The outcome of the `disconnect` handler. -/
structure DisconnectResult where
  state : PresenceState
  broadcast : Option UserPayload
  deriving Repr, DecidableEq

/-- The `disconnect` handler (`server.js` lines 1495–1528): an active user
becomes a Ghost keyed by persistent identity; a display connection is just
dropped from the display registry. -/
def handleDisconnect (st : PresenceState) (userId : String) (now : ℕ) :
    DisconnectResult :=
  match alGet st.users userId with
  | some user =>
    let persistentId :=
      if user.persistentUserId ≠ "" then user.persistentUserId else userId
    let ghost : Ghost :=
      { id := persistentId
        persistentUserId := persistentId
        color := user.color
        position := user.position
        imageSrc := jsStrOrNull user.imageSrc
        size := sanitizeTokenSize (some user.size)
        disconnectedAt := now }
    { state :=
        { st with
          disconnectedUsers := alSet st.disconnectedUsers persistentId ghost
          users := alDelete st.users userId }
      broadcast := some
        { userId := userId
          persistentUserId := persistentId
          color := user.color
          position := user.position
          imageSrc := jsStrOrNull user.imageSrc
          size := sanitizeTokenSize (some user.size) } }
  | none =>
    match alGet st.displayModeUsers userId with
    | some _ =>
      { state := { st with displayModeUsers := alDelete st.displayModeUsers userId }
        broadcast := none }
    | none => { state := st, broadcast := none }

/-! ### Token and legacy-cover handlers (including their exceptions)

Handlers that can raise an uncaught JS exception are modelled with
`Except JsError`. -/

/-- A runtime exception escaping a handler. -/
inductive JsError where
  /-- A `TypeError`, e.g. destructuring `null` or calling a member of
  `undefined`. -/
  | typeError
  deriving Repr, DecidableEq

/-- Payload of `remove-token`. -/
structure RemoveTokenPayload where
  persistentUserId : Option String := none
  deriving Repr, DecidableEq

/-- The outcome of `remove-token`. -/
structure RemoveTokenResult where
  users : List (String × UserData)
  disconnectedUsers : List (String × Ghost)
  /-- socket that receives a targeted `token-removed` emit, if any. -/
  targetedEmit : Option String
  /-- persistent id carried by the `token-removed` broadcast, if sent. -/
  broadcast : Option String
  deriving Repr, DecidableEq

/-- The `remove-token` handler (`server.js` lines 1531–1557): gated on
membership in `displayModeUsers`; deletes the Ghost under the given
persistent id and the first active user matching it, notifying that user's
socket if still connected, then broadcasts `token-removed`. With the gate
open, a `null` payload throws (`data.persistentUserId`). -/
def removeToken (displayModeUsers : List (String × UserData))
    (userId : String) (users : List (String × UserData))
    (ghosts : List (String × Ghost)) (connectedSockets : List String)
    (data : Option RemoveTokenPayload) : Except JsError RemoveTokenResult :=
  if ¬ alHas displayModeUsers userId then
    .ok { users := users, disconnectedUsers := ghosts,
          targetedEmit := none, broadcast := none }
  else
    match data with
    | none => .error .typeError
    | some d =>
      if jsFalsyStr d.persistentUserId then
        .ok { users := users, disconnectedUsers := ghosts,
              targetedEmit := none, broadcast := none }
      else
        let pid := d.persistentUserId.getD ""
        let ghosts' := if alHas ghosts pid then alDelete ghosts pid else ghosts
        match users.find? (fun e => e.2.persistentUserId = pid) with
        | some e =>
          .ok { users := alDelete users e.1
                disconnectedUsers := ghosts'
                targetedEmit :=
                  if connectedSockets.contains e.1 then some e.1 else none
                broadcast := some pid }
        | none =>
          .ok { users := users, disconnectedUsers := ghosts',
                targetedEmit := none, broadcast := some pid }

/-- Payload of `token-image-update`. -/
structure TokenImagePayload where
  tokenId : Option String := none
  imageSrc : Option String := none
  deriving Repr, DecidableEq

/-- The `token-image-update` handler (`server.js` lines 1440–1454):
destructures the payload (throwing on `null`/`undefined`), then updates the
target user's image and broadcasts `token-image-updated`. -/
def tokenImageUpdate (users : List (String × UserData))
    (data : Option TokenImagePayload) :
    Except JsError (List (String × UserData) × Option (String × Option String)) :=
  match data with
  | none => .error .typeError
  | some d =>
    if jsFalsyStr d.tokenId then .ok (users, none)
    else
      let tid := d.tokenId.getD ""
      match alGet users tid with
      | none => .ok (users, none)
      | some target =>
        let newSrc := jsStrOrNull d.imageSrc
        .ok (alSet users tid { target with imageSrc := newSrc },
          some (tid, newSrc))

/-- Payload of `add-token`. -/
structure AddTokenPayload where
  color : Option String := none
  position : Option Pos := none
  size : Option String := none
  imageSrc : Option String := none
  deriving Repr, DecidableEq

/-- The `token-added` broadcast payload. -/
structure TokenAddedEmit where
  userId : String
  persistentUserId : String
  color : String
  position : Option Pos
  size : String
  imageSrc : Option String
  deriving Repr, DecidableEq

/-- The `add-token` handler (`server.js` lines 1560–1589): destructures
the payload (throwing on `null`/`undefined`), creates a manual token as a
user entry, and broadcasts `token-added`. The generated ids and random
colour are passed explicitly. -/
def addToken (users : List (String × UserData))
    (tokenId persistentTokenId freshColor : String)
    (data : Option AddTokenPayload) :
    Except JsError (List (String × UserData) × TokenAddedEmit) :=
  match data with
  | none => .error .typeError
  | some d =>
    let color := if jsFalsyStr d.color then freshColor else d.color.getD ""
    let position : Option Pos := some (d.position.getD { x := 50, y := 50 })
    let size := sanitizeTokenSize d.size
    let tokenData : UserData :=
      { id := tokenId
        persistentUserId := persistentTokenId
        color := color
        position := position
        size := size
        imageSrc := d.imageSrc
        isDisplay := false
        -- `tokenData` carries no `allowBattlemapMutations`/`suppressPresence`
        -- properties; an absent property reads as a falsy `undefined`.
        allowBattlemapMutations := false
        suppressPresence := false }
    .ok (alSet users tokenId tokenData,
      { userId := tokenId
        persistentUserId := persistentTokenId
        color := color
        position := position
        size := size
        imageSrc := jsStrOrNull tokenData.imageSrc })

/-- Payload of the legacy `update-cover` handler; a numeric field is `none`
when absent or not a number. -/
structure LegacyUpdatePayload where
  id : Option String := none
  x : Option ℚ := none
  y : Option ℚ := none
  width : Option ℚ := none
  height : Option ℚ := none
  color : Option String := none
  deriving Repr, DecidableEq

/-- The legacy `update-cover` handler (`server.js` lines 1637–1690) over
the module-level `covers` map. When the cover exists it is re-clamped and
stored, and the subsequent `io.broadcast.emit` call throws a `TypeError`
(`io.broadcast` is `undefined` on a socket.io server), leaving the map
already mutated. -/
def updateCoverLegacy (covers : List (String × Cover))
    (data : Option LegacyUpdatePayload) :
    List (String × Cover) × Except JsError Unit :=
  match data with
  | none => (covers, .ok ())
  | some d =>
    match d.id with
    | none => (covers, .ok ())
    | some id =>
      match alGet covers id with
      | none => (covers, .ok ())
      | some cover =>
        let nextWidth :=
          match d.width with
          | some w => clampValue w 0 100
          | none => cover.width
        let nextHeight :=
          match d.height with
          | some h => clampValue h 0 100
          | none => cover.height
        let maxX := 100 - nextWidth
        let maxY := 100 - nextHeight
        let nextCover : Cover :=
          { cover with
            width := nextWidth
            height := nextHeight
            color := d.color.getD cover.color
            x :=
              match d.x with
              | some ux => clampValue ux 0 maxX
              | none => clampValue cover.x 0 maxX
            y :=
              match d.y with
              | some uy => clampValue uy 0 maxY
              | none => clampValue cover.y 0 maxY }
        (alSet covers id nextCover, .error .typeError)

/-! ## Shared lemmas -/

theorem alGet_mem {α : Type} {m : List (String × α)} {k : String} {v : α}
    (h : alGet m k = some v) : (k, v) ∈ m := by
  unfold alGet at h
  cases hf : m.find? (fun e => e.1 = k) with
  | none => rw [hf] at h; simp at h
  | some e =>
    rw [hf] at h
    simp only [Option.map_some', Option.some.injEq] at h
    have hm := List.mem_of_find?_eq_some hf
    have hk := List.find?_some hf
    simp only [decide_eq_true_eq] at hk
    have : e = (k, v) := by
      cases e; simp only at hk; simp only at h; simp [hk, h]
    rwa [this] at hm

theorem mem_alSet {α : Type} {m : List (String × α)} {k : String} {v : α}
    {e : String × α} (h : e ∈ alSet m k v) : e = (k, v) ∨ e ∈ m := by
  unfold alSet at h
  split at h
  · rcases List.mem_map.1 h with ⟨e', he', rfl⟩
    by_cases hk : e'.1 = k
    · simp [hk]
    · simp [hk]; right; exact he'
  · simp only [List.mem_append, List.mem_singleton] at h
    tauto

theorem alHas_iff_mem_alKeys {α : Type} {m : List (String × α)} {k : String} :
    alHas m k = true ↔ k ∈ alKeys m := by
  unfold alHas alGet alKeys
  rw [Option.isSome_map']
  rw [List.find?_isSome]
  constructor
  · rintro ⟨e, he, hk⟩
    simp only [decide_eq_true_eq] at hk
    exact List.mem_map.2 ⟨e, he, hk⟩
  · intro hk
    rcases List.mem_map.1 hk with ⟨e, he, hk'⟩
    exact ⟨e, he, by simp [hk']⟩

theorem alKeys_alSet_of_has {α : Type} {m : List (String × α)} {k : String}
    (v : α) (h : alHas m k = true) : alKeys (alSet m k v) = alKeys m := by
  unfold alSet
  rw [if_pos h]
  unfold alKeys
  rw [List.map_map]
  apply List.map_congr_left
  intro e _
  by_cases hk : e.1 = k <;> simp [Function.comp, hk]

theorem alKeys_alSet_of_not_has {α : Type} {m : List (String × α)}
    {k : String} (v : α) (h : alHas m k = false) :
    alKeys (alSet m k v) = alKeys m ++ [k] := by
  unfold alSet
  rw [if_neg (by simp [h])]
  simp [alKeys]

theorem alKeys_alDelete {α : Type} (m : List (String × α)) (k : String) :
    alKeys (alDelete m k) = (alKeys m).filter (fun id => id ≠ k) := by
  induction m with
  | nil => rfl
  | cons e t ih =>
    by_cases h : e.1 = k <;>
      simp [alDelete, alKeys, List.filter, h, ih] <;>
      simpa [alDelete, alKeys] using ih

/-- `ensureBattlemapHasAtLeastOneImage` never touches the covers. -/
theorem ensure_covers (b : Bool) (f : String) (bm : Battlemap) :
    (ensureBattlemapHasAtLeastOneImage b f bm).covers = bm.covers := by
  unfold ensureBattlemapHasAtLeastOneImage
  split
  · rfl
  · split <;> rfl

/-- `ensureBattlemapHasAtLeastOneImage` never changes the battlemap id. -/
theorem ensure_id (b : Bool) (f : String) (bm : Battlemap) :
    (ensureBattlemapHasAtLeastOneImage b f bm).id = bm.id := by
  unfold ensureBattlemapHasAtLeastOneImage
  split
  · rfl
  · split <;> rfl

/-- A successful `getBattlemapOrRespond` found its battlemap in the map. -/
theorem getBattlemapOrRespond_mem {bid : Option String} {st : BattlemapState}
    {bm : Battlemap} (h : getBattlemapOrRespond bid st = .ok bm) :
    ∃ s, bid = some s ∧ s ≠ "" ∧ alGet st.maps s = some bm := by
  unfold getBattlemapOrRespond at h
  cases bid with
  | none => simp at h
  | some s =>
    dsimp only at h
    by_cases hs : s = ""
    · rw [if_pos hs] at h; simp at h
    · rw [if_neg hs] at h
      cases hg : alGet st.maps s with
      | none => rw [hg] at h; simp at h
      | some v =>
        rw [hg] at h
        simp only [Except.ok.injEq] at h
        exact ⟨s, rfl, hs, by rw [hg, h]⟩

/-! ## C1: cover clamp invariant -/

/-- The cover geometry invariant of §3 / §8. -/
def coverInvariant (c : Cover) : Prop :=
  0 ≤ c.x ∧ 0 ≤ c.y ∧ 0 ≤ c.width ∧ c.width ≤ 100 ∧
    0 ≤ c.height ∧ c.height ≤ 100 ∧ c.x + c.width ≤ 100 ∧ c.y + c.height ≤ 100

instance (c : Cover) : Decidable (coverInvariant c) := by
  unfold coverInvariant; infer_instance

/-- Every cover stored in any battlemap of the state is clamped. -/
def coversInvariant (st : BattlemapState) : Prop :=
  ∀ e ∈ st.maps, ∀ ce ∈ e.2.covers, coverInvariant ce.2.cover

instance (st : BattlemapState) : Decidable (coversInvariant st) := by
  unfold coversInvariant; infer_instance

theorem sanitizeCover_id (input : CoverInput) :
    (sanitizeCover input).id = input.id := rfl

theorem coverInputOfRaw_id (raw : RawCover) (cid : String) :
    (coverInputOfRaw raw cid).id = cid := rfl

theorem sanitizeCover_width (input : CoverInput) :
    (sanitizeCover input).width = clampValue (input.width.getD 0) 0 100 := by
  cases h : input.width <;> simp [sanitizeCover, h]

theorem sanitizeCover_height (input : CoverInput) :
    (sanitizeCover input).height = clampValue (input.height.getD 0) 0 100 := by
  cases h : input.height <;> simp [sanitizeCover, h]

theorem sanitizeCover_x (input : CoverInput) :
    (sanitizeCover input).x =
      clampValue (input.x.getD 0) 0 (100 - clampValue (input.width.getD 0) 0 100) := by
  cases hx : input.x <;> cases hw : input.width <;> simp [sanitizeCover, hx, hw]

theorem sanitizeCover_y (input : CoverInput) :
    (sanitizeCover input).y =
      clampValue (input.y.getD 0) 0 (100 - clampValue (input.height.getD 0) 0 100) := by
  cases hy : input.y <;> cases hh : input.height <;> simp [sanitizeCover, hy, hh]

theorem clamp_geometry (xv yv wv hv : ℚ) :
    0 ≤ clampValue xv 0 (100 - clampValue wv 0 100) ∧
    0 ≤ clampValue yv 0 (100 - clampValue hv 0 100) ∧
    0 ≤ clampValue wv 0 100 ∧ clampValue wv 0 100 ≤ 100 ∧
    0 ≤ clampValue hv 0 100 ∧ clampValue hv 0 100 ≤ 100 ∧
    clampValue xv 0 (100 - clampValue wv 0 100) + clampValue wv 0 100 ≤ 100 ∧
    clampValue yv 0 (100 - clampValue hv 0 100) + clampValue hv 0 100 ≤ 100 := by
  simp only [clampValue]
  have hw1 : (0 : ℚ) ≤ min (max wv 0) 100 :=
    le_min (le_max_right _ _) (by norm_num)
  have hw2 : min (max wv 0) 100 ≤ (100 : ℚ) := min_le_right _ _
  have hh1 : (0 : ℚ) ≤ min (max hv 0) 100 :=
    le_min (le_max_right _ _) (by norm_num)
  have hh2 : min (max hv 0) 100 ≤ (100 : ℚ) := min_le_right _ _
  have hx1 : (0 : ℚ) ≤ min (max xv 0) (100 - min (max wv 0) 100) :=
    le_min (le_max_right _ _) (by linarith)
  have hx2 : min (max xv 0) (100 - min (max wv 0) 100) ≤
      100 - min (max wv 0) 100 := min_le_right _ _
  have hy1 : (0 : ℚ) ≤ min (max yv 0) (100 - min (max hv 0) 100) :=
    le_min (le_max_right _ _) (by linarith)
  have hy2 : min (max yv 0) (100 - min (max hv 0) 100) ≤
      100 - min (max hv 0) 100 := min_le_right _ _
  exact ⟨hx1, hy1, hw1, hw2, hh1, hh2, by linarith, by linarith⟩

theorem coverInvariant_sanitizeCover (input : CoverInput) :
    coverInvariant (sanitizeCover input) := by
  unfold coverInvariant
  rw [sanitizeCover_x, sanitizeCover_y, sanitizeCover_width, sanitizeCover_height]
  exact clamp_geometry (input.x.getD 0) (input.y.getD 0)
    (input.width.getD 0) (input.height.getD 0)

theorem coversInvariant_putBattlemap {st : BattlemapState} {bm : Battlemap}
    (hst : coversInvariant st)
    (hbm : ∀ ce ∈ bm.covers, coverInvariant ce.2.cover) :
    coversInvariant (putBattlemap st bm) := by
  intro e he ce hce
  rcases mem_alSet he with rfl | he'
  · exact hbm ce hce
  · exact hst e he' ce hce

theorem coversInvariant_addCover (conn : Option UserData)
    (flags : SchemaFlags) (freshFloorId freshCoverId : String)
    (st : BattlemapState) (payload : Option AddCoverPayload)
    (hst : coversInvariant st) :
    coversInvariant
      (battlemapAddCover conn flags freshFloorId freshCoverId st payload).2 := by
  unfold battlemapAddCover
  split
  · exact hst
  · cases hbm : getBattlemapOrRespond (payload.bind (·.battlemapId)) st with
    | error e => exact hst
    | ok bm0 =>
      dsimp only
      repeat' split
      all_goals first
        | exact hst
        | (apply coversInvariant_putBattlemap hst
           intro ce hce
           rcases mem_alSet hce with rfl | hce'
           · exact coverInvariant_sanitizeCover _
           · try rw [ensure_covers] at hce'
             rcases getBattlemapOrRespond_mem hbm with ⟨s, _, _, hget⟩
             exact hst (s, bm0) (alGet_mem hget) ce hce')

theorem coversInvariant_updateCover (conn : Option UserData)
    (flags : SchemaFlags) (st : BattlemapState)
    (payload : Option UpdateCoverPayload) (hst : coversInvariant st) :
    coversInvariant (battlemapUpdateCover conn flags st payload).2 := by
  unfold battlemapUpdateCover
  split
  · exact hst
  · cases hbm : getBattlemapOrRespond (payload.bind (·.battlemapId)) st with
    | error e => exact hst
    | ok bm =>
      dsimp only
      repeat' split
      all_goals first
        | exact hst
        | (apply coversInvariant_putBattlemap hst
           intro ce hce
           rcases mem_alSet hce with rfl | hce'
           · exact coverInvariant_sanitizeCover _
           · rcases getBattlemapOrRespond_mem hbm with ⟨s, _, _, hget⟩
             exact hst (s, bm) (alGet_mem hget) ce hce')

/-- C1: for every cover add or update input, whatever the numeric or
missing `x`, `y`, `width`, `height` fields, the cover stored in session
state satisfies `0 ≤ x`, `0 ≤ y`, `0 ≤ width ≤ 100`, `0 ≤ height ≤ 100`,
`x + width ≤ 100` and `y + height ≤ 100`, obtained by first clamping
`width` and `height` independently into `[0,100]` and then clamping `x`
into `[0, 100−width]` and `y` into `[0, 100−height]`; in particular input
`{x:90, y:90, width:30, height:30}` is stored as
`{x:70, y:70, width:30, height:30}`. -/
theorem C1_cover_clamp_invariant :
    (∀ input : CoverInput,
      (sanitizeCover input).width = clampValue (input.width.getD 0) 0 100 ∧
      (sanitizeCover input).height = clampValue (input.height.getD 0) 0 100 ∧
      (sanitizeCover input).x =
        clampValue (input.x.getD 0) 0 (100 - (sanitizeCover input).width) ∧
      (sanitizeCover input).y =
        clampValue (input.y.getD 0) 0 (100 - (sanitizeCover input).height) ∧
      coverInvariant (sanitizeCover input)) ∧
    (∀ conn flags freshFloorId freshCoverId st payload,
      coversInvariant st →
      coversInvariant
        (battlemapAddCover conn flags freshFloorId freshCoverId st payload).2) ∧
    (∀ conn flags st payload,
      coversInvariant st →
      coversInvariant (battlemapUpdateCover conn flags st payload).2) ∧
    sanitizeCover
        { id := "c1", x := some 90, y := some 90,
          width := some 30, height := some 30 } =
      { id := "c1", x := 70, y := 70, width := 30, height := 30,
        color := "#808080" } := by
  refine ⟨fun input => ?_, coversInvariant_addCover,
    coversInvariant_updateCover, by norm_num [sanitizeCover, clampValue]⟩
  refine ⟨sanitizeCover_width input, sanitizeCover_height input, ?_, ?_,
    coverInvariant_sanitizeCover input⟩
  · rw [sanitizeCover_x, sanitizeCover_width]
  · rw [sanitizeCover_y, sanitizeCover_height]

/-! Concrete fixtures shared by the witness theorems. -/

/-- A host connection (display role, mutator capability). -/
def fixHost : UserData :=
  { id := "s1", persistentUserId := "s1", color := "#ef4444",
    position := some { x := 50, y := 50 }, size := "medium",
    isDisplay := true, allowBattlemapMutations := true,
    suppressPresence := false }

/-- Legacy schema (no floor table, no cover floor scoping). -/
def fixLegacyFlags : SchemaFlags :=
  { supportsBattlemapImages := false, supportsBattlemapCoverImageId := false }

/-- Migrated schema (floors and floor-scoped covers). -/
def fixFullFlags : SchemaFlags :=
  { supportsBattlemapImages := true, supportsBattlemapCoverImageId := true }

/-- A legacy battlemap with no floors and no covers. -/
def fixLegacyBattlemap : Battlemap :=
  { id := "b1", name := "Map", mapPath := some "/maps/legacy.jpg",
    images := [], activeImageId := none, gridScale := 1, gridOffsetX := 0,
    gridOffsetY := 0, gridData := createDefaultGridData, covers := [] }

/-- A one-battlemap state around `fixLegacyBattlemap`. -/
def fixLegacyState : BattlemapState :=
  { order := ["b1"], maps := [("b1", fixLegacyBattlemap)],
    activeBattlemapId := some "b1" }

/-- The spec's example cover input. -/
def fixCoverRaw : RawCover :=
  { x := some (some 90), y := some (some 90),
    width := some (some 30), height := some (some 30) }

/-- Witness discharging C1's hypotheses at a concrete state and payload. -/
theorem C1_cover_clamp_invariant_witness :
    coversInvariant
      (battlemapAddCover (some fixHost) fixLegacyFlags "floor-1" "cover-1"
        fixLegacyState
        (some { battlemapId := some "b1", cover := some fixCoverRaw })).2 :=
  C1_cover_clamp_invariant.2.1 _ _ _ _ _ _ (by decide)

/-! ## C9: grid-data sanitization -/

/-- C9: for every grid-data input whose vertical or horizontal line list is
missing, not an array, or empty, or whose image width or height is
non-numeric or not positive, the stored grid data (via
`battlemap:update-grid-data`, whose storage path is `sanitizeGridData`)
replaces the defective parts with the evenly spaced synthetic default grid
covering the image (lines at 0, 5, …, 100 over a 100×100 image) instead of
failing; an empty detection result is valid input and never a crash. -/
theorem C9_grid_data_defaults :
    (generateGridLines 100 5 =
        [0, 5, 10, 15, 20, 25, 30, 35, 40, 45, 50,
         55, 60, 65, 70, 75, 80, 85, 90, 95, 100] ∧
      createDefaultGridData.verticalLines = generateGridLines 100 5 ∧
      createDefaultGridData.horizontalLines = generateGridLines 100 5 ∧
      createDefaultGridData.imageWidth = 100 ∧
      createDefaultGridData.imageHeight = 100) ∧
    sanitizeGridData none = createDefaultGridData ∧
    (∀ g : GridInput,
      ((g.verticalLines = none ∨ g.verticalLines = some []) →
        (sanitizeGridData (some g)).verticalLines = generateGridLines 100 5) ∧
      ((g.horizontalLines = none ∨ g.horizontalLines = some []) →
        (sanitizeGridData (some g)).horizontalLines = generateGridLines 100 5) ∧
      ((g.imageWidth = none ∨ ∃ w, g.imageWidth = some w ∧ w ≤ 0) →
        (sanitizeGridData (some g)).imageWidth = 100) ∧
      ((g.imageHeight = none ∨ ∃ h, g.imageHeight = some h ∧ h ≤ 0) →
        (sanitizeGridData (some g)).imageHeight = 100) ∧
      (∀ l, g.verticalLines = some l → l ≠ [] →
        (sanitizeGridData (some g)).verticalLines = l) ∧
      (∀ l, g.horizontalLines = some l → l ≠ [] →
        (sanitizeGridData (some g)).horizontalLines = l)) ∧
    (∀ conn st payload bm,
      ensureBattlemapMutator conn = true →
      getBattlemapOrRespond
        (payload.bind (·.battlemapId)) st = Except.ok bm →
      battlemapUpdateGridData conn st payload =
        (.ok none, putBattlemap st
          { bm with gridData := sanitizeGridData (payload.bind (·.gridData)) })) := by
  refine ⟨⟨by decide, rfl, rfl, rfl, rfl⟩, rfl, fun g => ?_, ?_⟩
  · refine ⟨?_, ?_, ?_, ?_, ?_, ?_⟩
    · rintro (h | h) <;>
        simp [sanitizeGridData, h, createDefaultGridData]
    · rintro (h | h) <;>
        simp [sanitizeGridData, h, createDefaultGridData]
    · rintro (h | ⟨w, hw, hw0⟩)
      · simp [sanitizeGridData, h, createDefaultGridData]
      · simp only [sanitizeGridData, hw]
        rw [if_neg (by simpa using hw0)]
        rfl
    · rintro (h | ⟨hh, hhh, hh0⟩)
      · simp [sanitizeGridData, h, createDefaultGridData]
      · simp only [sanitizeGridData, hhh]
        rw [if_neg (by simpa using hh0)]
        rfl
    · intro l hl hne
      simp [sanitizeGridData, hl, List.length_pos.2 hne]
    · intro l hl hne
      simp [sanitizeGridData, hl, List.length_pos.2 hne]
  · intro conn st payload bm hconn hbm
    simp [battlemapUpdateGridData, hconn, hbm]

/-- An empty detection result (no lines, zero dimensions). -/
def fixEmptyGridInput : GridInput :=
  { verticalLines := some [], horizontalLines := some [],
    imageWidth := some 0, imageHeight := some 0 }

/-- An update-grid-data request carrying the empty detection result. -/
def fixGridPayload : UpdateGridDataPayload :=
  { battlemapId := some "b1", gridData := some fixEmptyGridInput }

/-- Witness discharging C9's handler hypotheses: an empty detection result
is accepted and stored sanitized. -/
theorem C9_grid_data_defaults_witness :
    battlemapUpdateGridData (some fixHost) fixLegacyState (some fixGridPayload) =
      (.ok none, putBattlemap fixLegacyState
        { fixLegacyBattlemap with
          gridData := sanitizeGridData (some fixEmptyGridInput) }) :=
  C9_grid_data_defaults.2.2.2 _ _ _ _ (by decide) rfl

/-! ## C3: rename gating -/

/-- A non-display connection that explicitly requested the mutator
capability in its identification message. -/
def fixOptInUser : UserData :=
  (initializeUser { users := [], disconnectedUsers := [], displayModeUsers := [] }
    "s2" "#3b82f6"
    (some { isDisplay := false, allowBattlemapMutations := some true })).userData

/-- A plain viewer connection (non-display, no explicit capability). -/
def fixViewer : UserData :=
  (initializeUser { users := [], disconnectedUsers := [], displayModeUsers := [] }
    "s3" "#10b981" (some { isDisplay := false })).userData

/-- A rename request against the fixture battlemap. -/
def fixRenamePayload : RenamePayload :=
  { battlemapId := some "b1", name := some "Renamed" }

/-- C3 counterexample: the claim "every connection that did not identify as
display/host receives `forbidden` from `battlemap.rename`" is false — a
non-display connection that identified with `allowBattlemapMutations: true`
renames successfully and changes session state. -/
theorem C3_counterexample :
    fixOptInUser.isDisplay = false ∧
    (battlemapRename (some fixOptInUser) fixLegacyState
        (some fixRenamePayload)).1 = .ok none ∧
    (battlemapRename (some fixOptInUser) fixLegacyState
        (some fixRenamePayload)).2 ≠ fixLegacyState := by
  refine ⟨rfl, rfl, ?_⟩
  decide

/-- C3 (amended): every connection that neither identified as display/host
nor explicitly requested the battlemap-mutator capability — so its
`allowBattlemapMutations` flag is false, as is the case for any
unidentified connection — receives `{ok:false, error:"forbidden"}` from
`battlemap.rename`, and session state is unchanged. -/
theorem C3_rename_mutator_gate :
    (∀ (st : BattlemapState) payload,
      battlemapRename none st payload = (.err "forbidden", st)) ∧
    (∀ (u : UserData) st payload, u.allowBattlemapMutations = false →
      battlemapRename (some u) st payload = (.err "forbidden", st)) ∧
    (∀ st uid freshColor (d : IdentifyData), d.isDisplay = false →
      d.allowBattlemapMutations = none →
      (initializeUser st uid freshColor (some d)).userData.allowBattlemapMutations
        = false) := by
  refine ⟨fun st payload => rfl, fun u st payload h => ?_,
    fun st uid fc d h1 h2 => ?_⟩
  · simp [battlemapRename, ensureBattlemapMutator, h]
  · unfold initializeUser
    rw [apply_ite (fun r : InitResult => r.userData.allowBattlemapMutations)]
    dsimp only
    rw [ite_self]
    simp [h1, h2]

/-- Witness discharging C3's hypotheses: a plain viewer is forbidden. -/
theorem C3_rename_mutator_gate_witness :
    battlemapRename (some fixViewer) fixLegacyState (some fixRenamePayload) =
      (.err "forbidden", fixLegacyState) :=
  C3_rename_mutator_gate.2.1 fixViewer fixLegacyState (some fixRenamePayload)
    (by decide)

/-! ## C5: legacy mode -/

/-- C5 counterexample: with the floor table absent, `battlemap.get` on a
battlemap whose legacy path is `/maps/legacy.jpg` returns a snapshot whose
floor list is empty — not a snapshot containing exactly one synthetic
floor. -/
theorem C5_counterexample :
    (battlemapGet fixLegacyFlags "fresh-floor" fixLegacyState (some "b1")).1 =
      .ok (serializeBattlemap false fixLegacyBattlemap) ∧
    (serializeBattlemap false fixLegacyBattlemap).images = [] ∧
    fixLegacyBattlemap.mapPath = some "/maps/legacy.jpg" :=
  ⟨rfl, rfl, rfl⟩

/-- The battlemap-scoped cover entry stored by the legacy add-cover path. -/
def legacyCoverEntry (raw : RawCover) (coverId : String) : CoverEntry :=
  { cover := sanitizeCover (coverInputOfRaw raw coverId), imageId := none }

/-- C5 (amended): in legacy mode (floor table absent, so no floor-scoped
covers either) `battlemap.get` succeeds and returns a snapshot whose floor
list is empty (the legacy single-image path is carried by the snapshot's
`mapPath` field, not by a synthetic floor entry), with the battlemap-wide
cover set; and add/update/remove cover succeed without any floor id, with
covers scoped to the whole battlemap. -/
theorem C5_legacy_mode (st : BattlemapState) (bid : Option String)
    (bm : Battlemap) (freshId : String) (conn : Option UserData)
    (hconn : ensureBattlemapMutator conn = true)
    (hbm : getBattlemapOrRespond bid st = .ok bm) :
    (battlemapGet fixLegacyFlags freshId st bid =
        (.ok (serializeBattlemap false bm), putBattlemap st bm) ∧
      (serializeBattlemap false bm).images = bm.images ∧
      (serializeBattlemap false bm).mapPath = bm.mapPath ∧
      (serializeBattlemap false bm).covers = bm.covers.map (·.2.cover)) ∧
    (∀ raw : RawCover, raw.id = none → ∀ freshCoverId f1,
      battlemapAddCover conn fixLegacyFlags f1 freshCoverId st
          (some { battlemapId := bid, cover := some raw }) =
        (.ok (some freshCoverId), putBattlemap st
          { bm with covers := alSet bm.covers freshCoverId (legacyCoverEntry raw freshCoverId) })) ∧
    (∀ cid entry, cid ≠ "" → alGet bm.covers cid = some entry →
      (battlemapUpdateCover conn fixLegacyFlags st
          (some { battlemapId := bid, coverId := some cid })).1 = .ok none) ∧
    (∀ cid entry, cid ≠ "" → alGet bm.covers cid = some entry →
      battlemapRemoveCover conn fixLegacyFlags st
          (some { battlemapId := bid, coverId := some cid }) =
        (.ok none, putBattlemap st
          { bm with covers := alDelete bm.covers cid })) := by
  refine ⟨⟨?_, rfl, rfl, ?_⟩, ?_, ?_, ?_⟩
  · simp [battlemapGet, hbm, ensureBattlemapHasAtLeastOneImage, fixLegacyFlags]
  · simp [serializeBattlemap, getBattlemapCoversForActiveImage]
  · intro raw hraw freshCoverId f1
    simp [battlemapAddCover, hconn, hbm, fixLegacyFlags, hraw, legacyCoverEntry,
      sanitizeCover_id, coverInputOfRaw_id]
  · intro cid entry hcid hget
    simp [battlemapUpdateCover, hconn, hbm, fixLegacyFlags, jsFalsyStr, hcid,
      findCoverEntry, hget]
  · intro cid entry hcid hget
    simp [battlemapRemoveCover, hconn, hbm, fixLegacyFlags, jsFalsyStr, hcid,
      findCoverEntry, hget]

/-- Witness discharging C5's hypotheses at the legacy fixture state. -/
theorem C5_legacy_mode_witness :
    battlemapGet fixLegacyFlags "fresh-floor" fixLegacyState (some "b1") =
      (.ok (serializeBattlemap false fixLegacyBattlemap),
        putBattlemap fixLegacyState fixLegacyBattlemap) :=
  (C5_legacy_mode fixLegacyState (some "b1") fixLegacyBattlemap "fresh-floor"
    (some fixHost) (by decide) rfl).1.1

/-! ## C6: reconnection -/

/-- The ghost left by an active user at `{30,40}` with colour `#ef4444`,
an avatar, and size `large`. -/
def fixGhost : Ghost :=
  { id := "u-1", persistentUserId := "u-1", color := "#ef4444",
    position := some { x := 30, y := 40 },
    imageSrc := some "/avatars/hero.png", size := "large",
    disconnectedAt := 1000 }

/-- A presence state holding only `fixGhost`. -/
def fixGhostState : PresenceState :=
  { users := [], disconnectedUsers := [("u-1", fixGhost)],
    displayModeUsers := [] }

/-- The same persistent identity identifying again from socket `s2`. -/
def fixReconnect : InitResult :=
  initializeUser fixGhostState "s2" "#3b82f6"
    (some { persistentUserId := some "u-1" })

/-- C6: reconnection restores the Ghost's colour, position and size and
deletes the Ghost (no duplicate remains) — but the avatar is dropped: the
rebuilt user has `imageSrc = null` although the Ghost carried
`/avatars/hero.png`, and the `user-connected` payload reports `null`. -/
theorem C6_reconnect_drops_avatar :
    fixReconnect.userData.color = "#ef4444" ∧
    fixReconnect.userData.position = some { x := 30, y := 40 } ∧
    fixReconnect.userData.size = "large" ∧
    fixReconnect.state.disconnectedUsers = [] ∧
    alGet fixReconnect.state.users "s2" = some fixReconnect.userData ∧
    fixReconnect.connected = some
      { userId := "s2", persistentUserId := "u-1", color := "#ef4444",
        position := some { x := 30, y := 40 }, imageSrc := none,
        size := "large" } ∧
    fixReconnect.userData.imageSrc = none ∧
    fixGhost.imageSrc = some "/avatars/hero.png" := by
  decide

/-! ## C7: handler exceptions -/

/-- A stored legacy cover. -/
def fixLegacyCover : Cover :=
  { id := "c1", x := 10, y := 10, width := 20, height := 20, color := "#000" }

/-- C7: the claim that no wire-message handler throws is false on the code:
`token-image-update` and `add-token` throw a `TypeError` destructuring a
`null` payload, a display connection's `remove-token` with a `null` payload
throws reading `data.persistentUserId`, and the legacy `update-cover` on an
existing cover always throws because `io.broadcast` is `undefined`. -/
theorem C7_handlers_throw :
    tokenImageUpdate [] none = .error .typeError ∧
    addToken [] "t1" "p1" "#ef4444" none = .error .typeError ∧
    (updateCoverLegacy [("c1", fixLegacyCover)]
        (some { id := some "c1", x := some 5 })).2 = .error .typeError ∧
    removeToken [("s1", fixHost)] "s1" [] [] [] none = .error .typeError :=
  ⟨rfl, rfl, rfl, rfl⟩

/-! ## C8: remove-token gating -/

/-- A ghost to be removed by the host. -/
def fixGhost2 : Ghost :=
  { id := "g-1", persistentUserId := "g-1", color := "#ef4444",
    position := some { x := 30, y := 40 }, imageSrc := none,
    size := "medium", disconnectedAt := 5 }

/-- A non-display caller that explicitly holds the mutator capability,
identifying into a state holding `fixGhost2`. -/
def fixCapableCaller : InitResult :=
  initializeUser
    { users := [], disconnectedUsers := [("g-1", fixGhost2)],
      displayModeUsers := [] }
    "s1" "#3b82f6"
    (some { isDisplay := false, allowBattlemapMutations := some true })

/-- C8 counterexample: a caller holding the battlemap-mutator capability
(non-display, capability granted explicitly at identification) sends
`remove-token` for an existing Ghost; nothing is deleted and nothing is
broadcast, because the handler's gate is display-registry membership, not
the mutator capability. -/
theorem C8_counterexample :
    fixCapableCaller.userData.allowBattlemapMutations = true ∧
    removeToken fixCapableCaller.state.displayModeUsers "s1"
        fixCapableCaller.state.users fixCapableCaller.state.disconnectedUsers
        ["s1"] (some { persistentUserId := some "g-1" }) =
      .ok { users := fixCapableCaller.state.users,
            disconnectedUsers := fixCapableCaller.state.disconnectedUsers,
            targetedEmit := none, broadcast := none } ∧
    alGet fixCapableCaller.state.disconnectedUsers "g-1" = some fixGhost2 :=
  ⟨rfl, rfl, rfl⟩

/-- C8 (amended): `remove-token` is gated on membership in the display
registry (connections that identified as display/host without
`suppressPresence`), not on the battlemap-mutator capability. For a
registered display connection and a non-empty persistent id: the Ghost
under that id is deleted, the first active user with that persistent
identity is deleted and its socket notified if still connected, and
`token-removed` is broadcast; for any caller outside the display registry
nothing changes and nothing is broadcast; in no case is a new Ghost
created. -/
theorem C8_remove_token_display_gated (dmu : List (String × UserData))
    (userId : String) (users : List (String × UserData))
    (ghosts : List (String × Ghost)) (socks : List String) (pid : String)
    (hpid : pid ≠ "") :
    (alHas dmu userId = false →
      removeToken dmu userId users ghosts socks
          (some { persistentUserId := some pid }) =
        .ok { users := users, disconnectedUsers := ghosts,
              targetedEmit := none, broadcast := none }) ∧
    (alHas dmu userId = true →
      ∃ res, removeToken dmu userId users ghosts socks
          (some { persistentUserId := some pid }) = .ok res ∧
        res.disconnectedUsers =
          (if alHas ghosts pid then alDelete ghosts pid else ghosts) ∧
        res.broadcast = some pid ∧
        (∀ e ∈ res.disconnectedUsers, e ∈ ghosts) ∧
        (match users.find? (fun e => e.2.persistentUserId = pid) with
         | some e => res.users = alDelete users e.1 ∧
             res.targetedEmit =
               (if socks.contains e.1 then some e.1 else none)
         | none => res.users = users ∧ res.targetedEmit = none)) := by
  constructor
  · intro hgate
    simp [removeToken, hgate]
  · intro hgate
    have hfalsy : jsFalsyStr (some pid) = false := by
      simp [jsFalsyStr, hpid]
    unfold removeToken
    rw [if_neg (by simp [hgate])]
    simp only [hfalsy]
    cases hf : users.find? (fun e => e.2.persistentUserId = pid) with
    | none =>
      refine ⟨{ users := users,
                disconnectedUsers :=
                  if alHas ghosts pid then alDelete ghosts pid else ghosts,
                targetedEmit := none, broadcast := some pid },
        ?_, rfl, rfl, ?_, ?_⟩
      · simp [hf]
      · intro e he
        split at he
        · exact List.mem_of_mem_filter he
        · exact he
      · simp [hf]
    | some e =>
      refine ⟨{ users := alDelete users e.1,
                disconnectedUsers :=
                  if alHas ghosts pid then alDelete ghosts pid else ghosts,
                targetedEmit :=
                  if socks.contains e.1 then some e.1 else none,
                broadcast := some pid },
        ?_, rfl, rfl, ?_, ?_⟩
      · simp [hf]
      · intro e' he'
        split at he'
        · exact List.mem_of_mem_filter he'
        · exact he'
      · simp [hf]

/-- Witness discharging C8's hypotheses: a caller outside the display
registry removes nothing. -/
theorem C8_remove_token_display_gated_witness :
    removeToken [] "s1" [] [("g-1", fixGhost2)] []
      (some { persistentUserId := some "g-1" }) =
      .ok { users := [], disconnectedUsers := [("g-1", fixGhost2)],
            targetedEmit := none, broadcast := none } :=
  (C8_remove_token_display_gated [] "s1" [] [("g-1", fixGhost2)] [] "g-1"
    (by decide)).1 (by decide)

/-! ## C2: reorder atomicity -/

theorem filterMap_id_map_some (ss : List String) :
    (ss.map some).filterMap (fun x => x) = ss := by
  induction ss with
  | nil => rfl
  | cons a t ih => simp [List.filterMap_cons, ih]

theorem filterMap_id_comp_some (ss : List String) :
    List.filterMap ((fun x : Option String => x) ∘ some) ss = ss := by
  induction ss with
  | nil => rfl
  | cons a t ih => simp [List.filterMap_cons, ih]

/-- The reorder validation loop accepts exactly the lists of distinct
strings naming existing battlemaps and avoiding `seen`. -/
theorem reorderIdsValid_iff (maps : List (String × Battlemap)) :
    ∀ (ids : List (Option String)) (seen : List String),
      reorderIdsValid maps ids seen = true ↔
        ∃ ss : List String, ids = ss.map some ∧ ss.Nodup ∧
          (∀ s ∈ ss, alHas maps s = true) ∧ (∀ s ∈ ss, s ∉ seen) := by
  intro ids
  induction ids with
  | nil =>
    intro seen
    constructor
    · intro _
      exact ⟨[], rfl, List.nodup_nil, by simp, by simp⟩
    · intro _
      rfl
  | cons hd tl ih =>
    intro seen
    cases hd with
    | none =>
      constructor
      · intro h
        simp [reorderIdsValid] at h
      · rintro ⟨ss, hmap, -⟩
        cases ss <;> simp at hmap
    | some id =>
      constructor
      · intro h
        unfold reorderIdsValid at h
        split at h
        · simp at h
        · rename_i hcond
          push_neg at hcond
          obtain ⟨hhas, hseen⟩ := hcond
          obtain ⟨ss', hmap, hnodup, hhas', hnotin⟩ := (ih (id :: seen)).1 h
          refine ⟨id :: ss', by simp [hmap], ?_, ?_, ?_⟩
          · refine List.nodup_cons.2 ⟨fun hmem => ?_, hnodup⟩
            exact hnotin id hmem (List.mem_cons_self _ _)
          · intro s hs
            rcases List.mem_cons.1 hs with rfl | hs'
            · simpa using hhas
            · exact hhas' s hs'
          · intro s hs
            rcases List.mem_cons.1 hs with rfl | hs'
            · intro hmem
              exact absurd (by simpa using hmem) (by simpa using hseen)
            · intro hmem
              exact hnotin s hs' (List.mem_cons_of_mem _ hmem)
      · rintro ⟨ss, hmap, hnodup, hhas, hnotin⟩
        cases ss with
        | nil => simp at hmap
        | cons s ss' =>
          simp only [List.map_cons, List.cons.injEq, Option.some.injEq] at hmap
          obtain ⟨rfl, rfl⟩ := hmap
          unfold reorderIdsValid
          rw [if_neg]
          · refine (ih (id :: seen)).2 ⟨ss', rfl, (List.nodup_cons.1 hnodup).2,
              fun x hx => hhas x (List.mem_cons_of_mem _ hx), ?_⟩
            intro x hx hmem
            rcases List.mem_cons.1 hmem with rfl | hmem'
            · exact (List.nodup_cons.1 hnodup).1 hx
            · exact hnotin x (List.mem_cons_of_mem _ hx) hmem'
          · push_neg
            refine ⟨hhas id (List.mem_cons_self _ _), ?_⟩
            simp [hnotin id (List.mem_cons_self _ _)]

/-- Distinct elements of a list of the same length drawn from a
duplicate-free list form a permutation of it. -/
theorem perm_of_nodup_subset_length {ss order : List String}
    (h1 : ss.Nodup) (h2 : ∀ s ∈ ss, s ∈ order)
    (h3 : ss.length = order.length) : ss.Perm order :=
  (List.subperm_of_subset h1 h2).perm_of_length_le h3.ge

/-- C2: a `battlemap.reorder` request whose id list is not an array, has
the wrong length, or contains a non-string, unknown, or duplicate id is
rejected wholesale with `invalid-order` and the state — in particular the
battlemap order — is exactly unchanged; only a permutation of all current
battlemap ids is accepted, and it replaces the order exactly (maps and
active battlemap untouched). -/
theorem C2_reorder_atomicity (conn : Option UserData) (st : BattlemapState)
    (payload : Option (List (Option String)))
    (hconn : ensureBattlemapMutator conn = true)
    (hnodup : st.order.Nodup)
    (hkeys : ∀ id, id ∈ st.order ↔ alHas st.maps id = true) :
    ((battlemapReorder conn st payload).1 = .err "invalid-order" →
      (battlemapReorder conn st payload).2 = st) ∧
    (∀ ss : List String, payload = some (ss.map some) → ss.Perm st.order →
      battlemapReorder conn st payload = (.ok none, { st with order := ss })) ∧
    ((battlemapReorder conn st payload).1 ≠ .err "invalid-order" →
      ∃ ss : List String, payload = some (ss.map some) ∧ ss.Perm st.order ∧
        battlemapReorder conn st payload =
          (.ok none, { st with order := ss })) := by
  have hgate : (¬ ensureBattlemapMutator conn = true) = False := by
    simp [hconn]
  refine ⟨?_, ?_, ?_⟩
  · intro hack
    unfold battlemapReorder at *
    rw [if_neg (by simp [hconn])] at *
    cases payload with
    | none => rfl
    | some ids =>
      by_cases hlen : ids.length = st.order.length
      · by_cases hvalid : reorderIdsValid st.maps ids [] = true
        · simp [hlen, hvalid] at hack
        · simp [hlen, hvalid]
      · simp [hlen]
  · intro ss hpayload hperm
    subst hpayload
    have hlen : (ss.map some).length = st.order.length := by
      simpa using hperm.length_eq
    have hvalid : reorderIdsValid st.maps (ss.map some) [] = true := by
      refine (reorderIdsValid_iff st.maps (ss.map some) []).2
        ⟨ss, rfl, hperm.nodup_iff.2 hnodup, ?_, by simp⟩
      intro s hs
      exact (hkeys s).1 (hperm.mem_iff.1 hs)
    unfold battlemapReorder
    rw [if_neg (by simp [hconn])]
    simp [hlen, hvalid, filterMap_id_map_some, filterMap_id_comp_some]
  · intro hack
    unfold battlemapReorder at *
    rw [if_neg (by simp [hconn])] at *
    cases payload with
    | none => simp at hack
    | some ids =>
      by_cases hlen : ids.length = st.order.length
      · by_cases hvalid : reorderIdsValid st.maps ids [] = true
        · obtain ⟨ss, rfl, hnd, hhas, -⟩ :=
            (reorderIdsValid_iff st.maps ids []).1 hvalid
          have hperm : ss.Perm st.order := by
            refine perm_of_nodup_subset_length hnd
              (fun s hs => (hkeys s).2 (hhas s hs)) ?_
            simpa using hlen
          exact ⟨ss, rfl, hperm,
            by simp [hlen, hvalid, filterMap_id_map_some, filterMap_id_comp_some]⟩
        · simp [hlen, hvalid] at hack
      · simp [hlen] at hack

/-- Witness discharging C2's hypotheses at a concrete state: a list
missing an existing id is rejected and the order is unchanged. -/
theorem C2_reorder_atomicity_witness :
    (battlemapReorder (some fixHost) fixLegacyState
        (some [some "b-other"])).2 = fixLegacyState :=
  (C2_reorder_atomicity (some fixHost) fixLegacyState (some [some "b-other"])
    (by decide) (by decide)
    (fun id => by
      by_cases h : id = "b1" <;>
        simp [fixLegacyState, fixLegacyBattlemap, alHas, alGet, h, eq_comm])).1
    (by decide)

/-! ## C4: floor deletion guard -/

/-- Modelled from the spec: §7's classification of the wire-level error
strings into the spec's error kinds (`not-found`, `forbidden`,
`invalid-input`, `unsupported`); §7 lists "deleting last Floor" as an
`invalid-input` and the implementer may choose the transport encoding. -/
def specErrorKind : String → String
  | "battlemap-not-found" => "not-found"
  | "image-not-found" => "not-found"
  | "cover-not-found" => "not-found"
  | "invalid-battlemap-id" => "invalid-input"
  | "invalid-image-id" => "invalid-input"
  | "invalid-order" => "invalid-input"
  | "cannot-delete-last-image" => "invalid-input"
  | "forbidden" => "forbidden"
  | "unsupported" => "unsupported"
  | _ => "unknown"

/-- With a non-empty floor list, the backfill never changes the floors. -/
theorem ensure_images_of_ne (f : String) (bm : Battlemap)
    (hne : bm.images ≠ []) :
    (ensureBattlemapHasAtLeastOneImage true f bm).images = bm.images := by
  unfold ensureBattlemapHasAtLeastOneImage
  rw [if_neg (by simp), if_pos hne]

/-- With a non-empty floor list and a truthy active floor id, the backfill
keeps the active floor id. -/
theorem ensure_active_of_truthy (f : String) (bm : Battlemap)
    (hne : bm.images ≠ []) (hact : jsFalsyStr bm.activeImageId = false) :
    (ensureBattlemapHasAtLeastOneImage true f bm).activeImageId =
      bm.activeImageId := by
  unfold ensureBattlemapHasAtLeastOneImage
  rw [if_neg (by simp), if_pos hne]
  simp [hact]

/-- Deleting the one floor carrying a given id (unique among the floor
ids) shortens the list by exactly one. -/
theorem length_filter_ne_of_nodup :
    ∀ (l : List Floor) (iid : String), (l.map (·.id)).Nodup →
      ∀ f ∈ l, f.id = iid →
      (l.filter (fun g => g.id ≠ iid)).length = l.length - 1 := by
  intro l
  induction l with
  | nil => intro iid _ f hf; simp at hf
  | cons h t ih =>
    intro iid hnd f hf hfid
    simp only [List.map_cons, List.nodup_cons] at hnd
    by_cases hh : h.id = iid
    · have hkeep : t.filter (fun g => g.id ≠ iid) = t := by
        refine List.filter_eq_self.2 ?_
        intro g hg
        simp only [ne_eq, decide_eq_true_eq]
        intro hgid
        refine hnd.1 ?_
        have : h.id = g.id := by rw [hh, hgid]
        rw [this]
        exact List.mem_map.2 ⟨g, hg, rfl⟩
      rw [List.filter_cons, if_neg (by simp [hh]), hkeep]
      simp
    · rcases List.mem_cons.1 hf with rfl | hft
      · exact absurd hfid hh
      · have ht := ih iid hnd.2 f hft hfid
        have htpos : 0 < t.length := List.length_pos.2 (by rintro rfl; simp at hft)
        simp only [List.filter_cons, List.length_cons]
        rw [if_pos (by simp [hh])]
        simp only [List.length_cons]
        omega

/-- C4: deleting the sole remaining floor of a battlemap is rejected with
`cannot-delete-last-image` — the spec's `invalid-input` kind — and the
floor list is unchanged; deleting one of two or more floors succeeds and
removes exactly that floor, and if the deleted floor was the active one,
the active floor id becomes the first remaining floor by sort index. -/
theorem C4_floor_deletion_guard (conn : Option UserData)
    (flags : SchemaFlags) (freshId : String) (st : BattlemapState)
    (payload : Option ImagePayload) (bm : Battlemap) (iid : String)
    (hconn : ensureBattlemapMutator conn = true)
    (hflags : flags.supportsBattlemapImages = true)
    (hbm : getBattlemapOrRespond (payload.bind (·.battlemapId)) st =
      Except.ok bm)
    (hiid : payload.bind (·.imageId) = some iid)
    (hblank : jsTrim iid ≠ "")
    (hact : jsFalsyStr bm.activeImageId = false) :
    (∀ f : Floor, bm.images = [f] → f.id = iid →
      (battlemapDeleteImage conn flags freshId st payload).1 =
        .err "cannot-delete-last-image" ∧
      specErrorKind "cannot-delete-last-image" = "invalid-input" ∧
      ∃ bm', (battlemapDeleteImage conn flags freshId st payload).2 =
          putBattlemap st bm' ∧ bm'.images = bm.images) ∧
    (∀ f : Floor, f ∈ bm.images → f.id = iid → 2 ≤ bm.images.length →
      (bm.images.map (·.id)).Nodup →
      bm.images.Pairwise (fun a b => a.sortIndex ≤ b.sortIndex) →
      (battlemapDeleteImage conn flags freshId st payload).1 = .ok none ∧
      ∃ bm', (battlemapDeleteImage conn flags freshId st payload).2 =
          putBattlemap st bm' ∧
        bm'.images = bm.images.filter (fun g => g.id ≠ iid) ∧
        (∀ g, g ∈ bm'.images ↔ g ∈ bm.images ∧ g.id ≠ iid) ∧
        bm'.images.length = bm.images.length - 1 ∧
        (bm.activeImageId = some iid → ∃ f0, bm'.images.head? = some f0 ∧
          bm'.activeImageId = some f0.id ∧
          ∀ g ∈ bm'.images, f0.sortIndex ≤ g.sortIndex)) := by
  constructor
  · intro f hsingle hfid
    have hne : bm.images ≠ [] := by rw [hsingle]; simp
    have himg : (ensureBattlemapHasAtLeastOneImage true freshId bm).images =
        bm.images := ensure_images_of_ne _ _ hne
    have hfound : getBattlemapImageById
        (ensureBattlemapHasAtLeastOneImage true freshId bm) (some iid) =
        some f := by
      unfold getBattlemapImageById
      rw [himg, hsingle]
      simp [hfid]
    have hrem : (ensureBattlemapHasAtLeastOneImage true freshId bm).images.filter
        (fun img => ¬ some img.id = some iid) = [] := by
      rw [himg, hsingle]
      simp [hfid]
    unfold battlemapDeleteImage
    rw [if_neg (by simp [hconn]), if_neg (by simp [hflags]), hbm]
    dsimp only
    rw [hiid, if_neg (by simp [isNonBlankStr, hblank]), hfound]
    dsimp only
    rw [hrem, if_pos rfl]
    exact ⟨rfl, rfl, ⟨_, rfl, himg⟩⟩
  · intro f hf hfid hlen2 hnd hsorted
    have hne : bm.images ≠ [] := by rintro h0; rw [h0] at hf; simp at hf
    have himg : (ensureBattlemapHasAtLeastOneImage true freshId bm).images =
        bm.images := ensure_images_of_ne _ _ hne
    have hactive : (ensureBattlemapHasAtLeastOneImage true freshId bm).activeImageId =
        bm.activeImageId := ensure_active_of_truthy _ _ hne hact
    have hfound : ∃ fx, getBattlemapImageById
        (ensureBattlemapHasAtLeastOneImage true freshId bm) (some iid) =
        some fx := by
      unfold getBattlemapImageById
      rw [himg]
      refine Option.isSome_iff_exists.1 ?_
      rw [List.find?_isSome]
      exact ⟨f, hf, by simp [hfid]⟩
    obtain ⟨fx, hfx⟩ := hfound
    have hpredeq : bm.images.filter (fun img => ¬ some img.id = some iid) =
        bm.images.filter (fun g => g.id ≠ iid) :=
      List.filter_congr (fun g _ => by simp)
    have hlen1 : (bm.images.filter (fun g => g.id ≠ iid)).length =
        bm.images.length - 1 :=
      length_filter_ne_of_nodup bm.images iid hnd f hf hfid
    have hremne : (ensureBattlemapHasAtLeastOneImage true freshId bm).images.filter
        (fun img => ¬ some img.id = some iid) ≠ [] := by
      rw [himg, hpredeq]
      intro h0
      rw [h0] at hlen1
      simp at hlen1
      omega
    unfold battlemapDeleteImage
    rw [if_neg (by simp [hconn]), if_neg (by simp [hflags]), hbm]
    dsimp only
    rw [hiid, if_neg (by simp [isNonBlankStr, hblank]), hfx]
    dsimp only
    rw [if_neg hremne]
    refine ⟨rfl, ⟨_, rfl, ?_⟩⟩
    rw [himg, hpredeq] at hremne
    have himgs3 :
        ∀ (b3 : Battlemap), b3.images = bm.images.filter (fun g => g.id ≠ iid) →
          (∀ g, g ∈ b3.images ↔ g ∈ bm.images ∧ g.id ≠ iid) ∧
          b3.images.length = bm.images.length - 1 := by
      intro b3 h3
      refine ⟨?_, by rw [h3, hlen1]⟩
      intro g
      rw [h3]
      simp [List.mem_filter]
    -- case analysis over the covers branch and the active-floor branch
    by_cases hc : flags.supportsBattlemapCoverImageId = true <;>
      by_cases hai : bm.activeImageId = some iid <;>
        simp only [hc, hai, if_true, if_false, Bool.false_eq_true, himg,
          hactive, hpredeq] <;>
      [skip; skip; skip; skip]
    all_goals
      refine ⟨trivial, fun g => by simp [List.mem_filter], hlen1, ?_⟩
      first
      | exact fun hfalse => hfalse.elim
      | (intro _
         obtain ⟨f0, rest, hcons⟩ := List.exists_cons_of_ne_nil hremne
         have hp := hsorted.filter (fun g : Floor => decide (g.id ≠ iid))
         rw [hcons] at hp
         refine ⟨f0, by rw [hcons]; rfl, by rw [hcons]; rfl, ?_⟩
         intro g hg
         rw [hcons] at hg
         rcases List.mem_cons.1 hg with rfl | hg'
         · exact le_rfl
         · exact (List.pairwise_cons.1 hp).1 g hg')

/-- Ground floor fixture. -/
def fixFloorA : Floor :=
  { id := "fl-a", name := "Ground", mapPath := some "/maps/a.jpg",
    sortIndex := 0 }

/-- Basement floor fixture. -/
def fixFloorB : Floor :=
  { id := "fl-b", name := "Basement", mapPath := some "/maps/b.jpg",
    sortIndex := 1 }

/-- A battlemap with two floors, the first active. -/
def fixTwoFloorBattlemap : Battlemap :=
  { id := "b2", name := "Dungeon", mapPath := some "/maps/a.jpg",
    images := [fixFloorA, fixFloorB], activeImageId := some "fl-a",
    gridScale := 1, gridOffsetX := 0, gridOffsetY := 0,
    gridData := createDefaultGridData, covers := [] }

/-- A state holding the two-floor battlemap. -/
def fixTwoFloorState : BattlemapState :=
  { order := ["b2"], maps := [("b2", fixTwoFloorBattlemap)],
    activeBattlemapId := some "b2" }

/-- Witness discharging C4's hypotheses: deleting the active one of two
floors succeeds. -/
theorem C4_floor_deletion_guard_witness :
    (battlemapDeleteImage (some fixHost) fixFullFlags "fresh"
        fixTwoFloorState
        (some { battlemapId := some "b2", imageId := some "fl-a" })).1 =
      .ok none :=
  ((C4_floor_deletion_guard (some fixHost) fixFullFlags "fresh"
      fixTwoFloorState
      (some { battlemapId := some "b2", imageId := some "fl-a" })
      fixTwoFloorBattlemap "fl-a" (by decide) (by decide) rfl rfl
      (by decide) (by decide)).2
    fixFloorA (by decide) (by decide) (by decide) (by decide) (by decide)).1

/-! ## C10: session-state invariant -/

/-- The claim's session-state invariant: the ordered battlemap id list
contains each id exactly once and its elements are exactly the keys of the
id-to-battlemap map (mutual inclusion of duplicate-free lists), and the
active battlemap id is null or one of those keys. -/
def stateInvariant (st : BattlemapState) : Prop :=
  st.order.Nodup ∧ (alKeys st.maps).Nodup ∧
    (∀ id ∈ st.order, id ∈ alKeys st.maps) ∧
    (∀ id ∈ alKeys st.maps, id ∈ st.order) ∧
    (match st.activeBattlemapId with
     | some a => a ∈ alKeys st.maps
     | none => True)

/-- Auxiliary coherence carried alongside: every stored battlemap's `id`
field equals its map key (true of every state the server builds). -/
def idCoherent (st : BattlemapState) : Prop :=
  ∀ e ∈ st.maps, e.2.id = e.1

/-- The invariant together with the key-id coherence. -/
def stateWF (st : BattlemapState) : Prop :=
  stateInvariant st ∧ idCoherent st

instance (st : BattlemapState) : Decidable (stateInvariant st) :=
  match h : st.activeBattlemapId with
  | some a =>
    decidable_of_iff
      (st.order.Nodup ∧ (alKeys st.maps).Nodup ∧
        (∀ id ∈ st.order, id ∈ alKeys st.maps) ∧
        (∀ id ∈ alKeys st.maps, id ∈ st.order) ∧ a ∈ alKeys st.maps)
      (by unfold stateInvariant; rw [h])
  | none =>
    decidable_of_iff
      (st.order.Nodup ∧ (alKeys st.maps).Nodup ∧
        (∀ id ∈ st.order, id ∈ alKeys st.maps) ∧
        (∀ id ∈ alKeys st.maps, id ∈ st.order) ∧ True)
      (by unfold stateInvariant; rw [h])

instance (st : BattlemapState) : Decidable (idCoherent st) := by
  unfold idCoherent
  infer_instance

instance (st : BattlemapState) : Decidable (stateWF st) := by
  unfold stateWF
  infer_instance

/-- The default-battlemap fallback only ever picks an id from the order. -/
theorem getDefaultBattlemapId_mem {st : BattlemapState} {d : String}
    (h : getDefaultBattlemapId st = some d) : d ∈ st.order :=
  List.mem_of_find?_eq_some h

/-- Replacing a looked-up battlemap by one with the same id preserves the
invariant and the key-id coherence. -/
theorem stateWF_putBattlemap {st : BattlemapState} {s : String}
    {bm bm' : Battlemap} (hget : alGet st.maps s = some bm)
    (hid : bm'.id = bm.id) (h : stateWF st) : stateWF (putBattlemap st bm') := by
  obtain ⟨⟨h1, h2, h3, h4, h5⟩, hco⟩ := h
  have hbmid : bm.id = s := hco (s, bm) (alGet_mem hget)
  have hhas : alHas st.maps bm'.id = true := by
    rw [hid, hbmid]
    unfold alHas
    rw [hget]
    rfl
  have hkeys : alKeys (alSet st.maps bm'.id bm') = alKeys st.maps :=
    alKeys_alSet_of_has _ hhas
  refine ⟨⟨h1, ?_, ?_, ?_, ?_⟩, ?_⟩
  · show (alKeys (alSet st.maps bm'.id bm')).Nodup
    rw [hkeys]; exact h2
  · show ∀ id ∈ st.order, id ∈ alKeys (alSet st.maps bm'.id bm')
    rw [hkeys]; exact h3
  · show ∀ id ∈ alKeys (alSet st.maps bm'.id bm'), id ∈ st.order
    rw [hkeys]; exact h4
  · show (match st.activeBattlemapId with
      | some a => a ∈ alKeys (alSet st.maps bm'.id bm')
      | none => True)
    rw [hkeys]; exact h5
  · intro e he
    rcases mem_alSet he with rfl | he'
    · rfl
    · exact hco e he'

/-- `ensureActiveBattlemap` restores the active-id part of the invariant
whenever the order/keys parts hold. -/
theorem stateInvariant_ensureActive {st : BattlemapState}
    (h1 : st.order.Nodup) (h2 : (alKeys st.maps).Nodup)
    (h3 : ∀ id ∈ st.order, id ∈ alKeys st.maps)
    (h4 : ∀ id ∈ alKeys st.maps, id ∈ st.order) :
    stateInvariant (ensureActiveBattlemap st) ∧
      (ensureActiveBattlemap st).maps = st.maps := by
  unfold ensureActiveBattlemap
  split
  · rename_i hcond
    refine ⟨⟨h1, h2, h3, h4, ?_⟩, rfl⟩
    rw [Bool.and_eq_true] at hcond
    cases hact : st.activeBattlemapId with
    | none => trivial
    | some a =>
      rw [hact] at hcond
      exact alHas_iff_mem_alKeys.1 hcond.2
  · refine ⟨⟨h1, h2, h3, h4, ?_⟩, rfl⟩
    cases hd : getDefaultBattlemapId st with
    | some d =>
      simp only [hd]
      exact h3 d (getDefaultBattlemapId_mem hd)
    | none =>
      simp only [hd]
      cases hh : st.order.head? with
      | none => trivial
      | some a =>
        exact h3 a (List.mem_of_mem_head? (by simp [hh]))

theorem stateWF_rename (conn : Option UserData) (st : BattlemapState)
    (payload : Option RenamePayload) (h : stateWF st) :
    stateWF (battlemapRename conn st payload).2 := by
  unfold battlemapRename
  split
  · exact h
  · cases hbm : getBattlemapOrRespond (payload.bind (·.battlemapId)) st with
    | error e => exact h
    | ok bm =>
      dsimp only
      rcases getBattlemapOrRespond_mem hbm with ⟨s, -, -, hget⟩
      exact stateWF_putBattlemap hget rfl h

theorem stateWF_updateGridData (conn : Option UserData) (st : BattlemapState)
    (payload : Option UpdateGridDataPayload) (h : stateWF st) :
    stateWF (battlemapUpdateGridData conn st payload).2 := by
  unfold battlemapUpdateGridData
  split
  · exact h
  · cases hbm : getBattlemapOrRespond (payload.bind (·.battlemapId)) st with
    | error e => exact h
    | ok bm =>
      dsimp only
      rcases getBattlemapOrRespond_mem hbm with ⟨s, -, -, hget⟩
      exact stateWF_putBattlemap hget rfl h

theorem stateWF_setActiveImage (conn : Option UserData) (flags : SchemaFlags)
    (freshId : String) (st : BattlemapState) (payload : Option ImagePayload)
    (h : stateWF st) :
    stateWF (battlemapSetActiveImage conn flags freshId st payload).2 := by
  unfold battlemapSetActiveImage
  split
  · exact h
  · split
    · exact h
    · cases hbm : getBattlemapOrRespond (payload.bind (·.battlemapId)) st with
      | error e => exact h
      | ok bm =>
        dsimp only
        rcases getBattlemapOrRespond_mem hbm with ⟨s, -, -, hget⟩
        repeat' split
        all_goals first
          | exact h
          | exact stateWF_putBattlemap hget (by simp [ensure_id]) h

theorem stateWF_addImage (conn : Option UserData) (flags : SchemaFlags)
    (f1 f2 : String) (st : BattlemapState) (payload : Option ImagePayload)
    (h : stateWF st) :
    stateWF (battlemapAddImage conn flags f1 f2 st payload).2 := by
  unfold battlemapAddImage
  split
  · exact h
  · split
    · exact h
    · cases hbm : getBattlemapOrRespond (payload.bind (·.battlemapId)) st with
      | error e => exact h
      | ok bm =>
        dsimp only
        rcases getBattlemapOrRespond_mem hbm with ⟨s, -, -, hget⟩
        exact stateWF_putBattlemap hget (by simp [ensure_id]) h

theorem stateWF_renameImage (conn : Option UserData) (flags : SchemaFlags)
    (freshId : String) (st : BattlemapState) (payload : Option ImagePayload)
    (h : stateWF st) :
    stateWF (battlemapRenameImage conn flags freshId st payload).2 := by
  unfold battlemapRenameImage
  split
  · exact h
  · split
    · exact h
    · cases hbm : getBattlemapOrRespond (payload.bind (·.battlemapId)) st with
      | error e => exact h
      | ok bm =>
        dsimp only
        rcases getBattlemapOrRespond_mem hbm with ⟨s, -, -, hget⟩
        repeat' split
        all_goals first
          | exact h
          | exact stateWF_putBattlemap hget (by simp [ensure_id]) h

theorem stateWF_deleteImage (conn : Option UserData) (flags : SchemaFlags)
    (freshId : String) (st : BattlemapState) (payload : Option ImagePayload)
    (h : stateWF st) :
    stateWF (battlemapDeleteImage conn flags freshId st payload).2 := by
  unfold battlemapDeleteImage
  split
  · exact h
  · split
    · exact h
    · cases hbm : getBattlemapOrRespond (payload.bind (·.battlemapId)) st with
      | error e => exact h
      | ok bm =>
        dsimp only
        rcases getBattlemapOrRespond_mem hbm with ⟨s, -, -, hget⟩
        repeat' split
        all_goals first
          | exact h
          | exact stateWF_putBattlemap hget (by simp [ensure_id]) h

theorem stateWF_updateMapPath (conn : Option UserData) (flags : SchemaFlags)
    (freshId : String) (st : BattlemapState)
    (payload : Option UpdateMapPathPayload) (h : stateWF st) :
    stateWF (battlemapUpdateMapPath conn flags freshId st payload).2 := by
  unfold battlemapUpdateMapPath
  split
  · exact h
  · cases hbm : getBattlemapOrRespond (payload.bind (·.battlemapId)) st with
    | error e => exact h
    | ok bm =>
      dsimp only
      rcases getBattlemapOrRespond_mem hbm with ⟨s, -, -, hget⟩
      repeat' split
      all_goals first
        | exact h
        | exact stateWF_putBattlemap hget (by simp [ensure_id]) h

theorem stateWF_addCover (conn : Option UserData) (flags : SchemaFlags)
    (f1 f2 : String) (st : BattlemapState) (payload : Option AddCoverPayload)
    (h : stateWF st) :
    stateWF (battlemapAddCover conn flags f1 f2 st payload).2 := by
  unfold battlemapAddCover
  split
  · exact h
  · cases hbm : getBattlemapOrRespond (payload.bind (·.battlemapId)) st with
    | error e => exact h
    | ok bm =>
      dsimp only
      rcases getBattlemapOrRespond_mem hbm with ⟨s, -, -, hget⟩
      repeat' split
      all_goals first
        | exact h
        | exact stateWF_putBattlemap hget (by simp [ensure_id]) h

theorem stateWF_updateCover (conn : Option UserData) (flags : SchemaFlags)
    (st : BattlemapState) (payload : Option UpdateCoverPayload)
    (h : stateWF st) : stateWF (battlemapUpdateCover conn flags st payload).2 := by
  unfold battlemapUpdateCover
  split
  · exact h
  · cases hbm : getBattlemapOrRespond (payload.bind (·.battlemapId)) st with
    | error e => exact h
    | ok bm =>
      dsimp only
      rcases getBattlemapOrRespond_mem hbm with ⟨s, -, -, hget⟩
      repeat' split
      all_goals first
        | exact h
        | exact stateWF_putBattlemap hget (by simp [ensure_id]) h

theorem stateWF_removeCover (conn : Option UserData) (flags : SchemaFlags)
    (st : BattlemapState) (payload : Option RemoveCoverPayload)
    (h : stateWF st) : stateWF (battlemapRemoveCover conn flags st payload).2 := by
  unfold battlemapRemoveCover
  split
  · exact h
  · cases hbm : getBattlemapOrRespond (payload.bind (·.battlemapId)) st with
    | error e => exact h
    | ok bm =>
      dsimp only
      rcases getBattlemapOrRespond_mem hbm with ⟨s, -, -, hget⟩
      repeat' split
      all_goals first
        | exact h
        | exact stateWF_putBattlemap hget (by simp [ensure_id]) h

theorem stateWF_create (conn : Option UserData) (flags : SchemaFlags)
    (newId imgId : String) (st : BattlemapState)
    (payload : Option CreatePayload) (hfresh : newId ∉ alKeys st.maps)
    (h : stateWF st) :
    stateWF (battlemapCreate conn flags newId imgId st payload).2 := by
  obtain ⟨⟨h1, h2, h3, h4, h5⟩, hco⟩ := h
  have hfresho : newId ∉ st.order := fun hmem => hfresh (h3 newId hmem)
  have hnothas : alHas st.maps newId = false := by
    rw [Bool.eq_false_iff]
    intro hh
    exact hfresh (alHas_iff_mem_alKeys.1 hh)
  unfold battlemapCreate
  split
  · exact ⟨⟨h1, h2, h3, h4, h5⟩, hco⟩
  · dsimp only
    have hkeys : ∀ nb : Battlemap,
        alKeys (alSet st.maps newId nb) = alKeys st.maps ++ [newId] :=
      fun nb => alKeys_alSet_of_not_has nb hnothas
    have horder1 : (st.order ++ [newId]).Nodup := by
      simp [List.nodup_append, h1, hfresho]
    have hkeys1 : (alKeys st.maps ++ [newId]).Nodup := by
      simp [List.nodup_append, h2, hfresh]
    have hmem1 : ∀ id ∈ st.order ++ [newId], id ∈ alKeys st.maps ++ [newId] := by
      intro id hid
      rcases List.mem_append.1 hid with hid' | hid'
      · exact List.mem_append.2 (Or.inl (h3 id hid'))
      · exact List.mem_append.2 (Or.inr hid')
    have hmem2 : ∀ id ∈ alKeys st.maps ++ [newId], id ∈ st.order ++ [newId] := by
      intro id hid
      rcases List.mem_append.1 hid with hid' | hid'
      · exact List.mem_append.2 (Or.inl (h4 id hid'))
      · exact List.mem_append.2 (Or.inr hid')
    have hco1 : ∀ nb : Battlemap, nb.id = newId →
        idCoherent { st with order := st.order ++ [newId], maps := alSet st.maps newId nb } := by
      intro nb hnb e he
      rcases mem_alSet he with rfl | he'
      · exact hnb
      · exact hco e he'
    split
    · refine ⟨⟨horder1, ?_, ?_, ?_, ?_⟩, hco1 _ rfl⟩
      · rw [hkeys]; exact hkeys1
      · show ∀ id ∈ st.order ++ [newId], id ∈ alKeys (alSet st.maps newId _)
        rw [hkeys]; exact hmem1
      · show ∀ id ∈ alKeys (alSet st.maps newId _), id ∈ st.order ++ [newId]
        rw [hkeys]; exact hmem2
      · show newId ∈ alKeys (alSet st.maps newId _)
        rw [hkeys]
        exact List.mem_append.2 (Or.inr (by simp))
    · refine ⟨⟨horder1, ?_, ?_, ?_, ?_⟩, hco1 _ rfl⟩
      · rw [hkeys]; exact hkeys1
      · show ∀ id ∈ st.order ++ [newId], id ∈ alKeys (alSet st.maps newId _)
        rw [hkeys]; exact hmem1
      · show ∀ id ∈ alKeys (alSet st.maps newId _), id ∈ st.order ++ [newId]
        rw [hkeys]; exact hmem2
      · show (match st.activeBattlemapId with
          | some a => a ∈ alKeys (alSet st.maps newId _)
          | none => True)
        cases hact : st.activeBattlemapId with
        | none => trivial
        | some a =>
          rw [hkeys]
          rw [hact] at h5
          exact List.mem_append.2 (Or.inl h5)

theorem stateWF_delete (conn : Option UserData) (st : BattlemapState)
    (bid : Option String) (h : stateWF st) :
    stateWF (battlemapDelete conn st bid).2 := by
  obtain ⟨⟨h1, h2, h3, h4, h5⟩, hco⟩ := h
  unfold battlemapDelete
  split
  · exact ⟨⟨h1, h2, h3, h4, h5⟩, hco⟩
  · cases hbm : getBattlemapOrRespond bid st with
    | error e => exact ⟨⟨h1, h2, h3, h4, h5⟩, hco⟩
    | ok bm =>
      dsimp only
      have hkeys : alKeys (alDelete st.maps bm.id) =
          (alKeys st.maps).filter (fun id => id ≠ bm.id) :=
        alKeys_alDelete st.maps bm.id
      have h1' : (st.order.filter (fun id => id ≠ bm.id)).Nodup := h1.filter _
      have h2' : (alKeys (alDelete st.maps bm.id)).Nodup := by
        rw [hkeys]; exact h2.filter _
      have h3' : ∀ id ∈ st.order.filter (fun id => id ≠ bm.id),
          id ∈ alKeys (alDelete st.maps bm.id) := by
        intro id hid
        rw [hkeys]
        rw [List.mem_filter] at hid ⊢
        exact ⟨h3 id hid.1, hid.2⟩
      have h4' : ∀ id ∈ alKeys (alDelete st.maps bm.id),
          id ∈ st.order.filter (fun id => id ≠ bm.id) := by
        intro id hid
        rw [hkeys, List.mem_filter] at hid
        rw [List.mem_filter]
        exact ⟨h4 id hid.1, hid.2⟩
      have hco' : idCoherent { st with maps := alDelete st.maps bm.id, order := st.order.filter (fun id => id ≠ bm.id) } := by
        intro e he
        exact hco e (List.mem_of_mem_filter he)
      split
      · rename_i hactdel
        obtain ⟨hinv', hmaps'⟩ :=
          @stateInvariant_ensureActive
            { st with maps := alDelete st.maps bm.id, order := st.order.filter (fun id => id ≠ bm.id) }
            h1' h2' h3' h4'
        refine ⟨hinv', ?_⟩
        intro e he
        rw [hmaps'] at he
        exact hco' e he
      · rename_i hactndel
        refine ⟨⟨h1', h2', h3', h4', ?_⟩, hco'⟩
        cases hact : st.activeBattlemapId with
        | none => trivial
        | some a =>
          simp only [hact] at h5 hactndel
          dsimp only
          rw [hkeys, List.mem_filter]
          refine ⟨h5, ?_⟩
          simp only [ne_eq, decide_eq_true_eq]
          intro heq
          exact hactndel (by rw [heq])

theorem stateWF_reorder (conn : Option UserData) (st : BattlemapState)
    (payload : Option (List (Option String))) (h : stateWF st) :
    stateWF (battlemapReorder conn st payload).2 := by
  obtain ⟨⟨h1, h2, h3, h4, h5⟩, hco⟩ := h
  unfold battlemapReorder
  split
  · exact ⟨⟨h1, h2, h3, h4, h5⟩, hco⟩
  · cases payload with
    | none => exact ⟨⟨h1, h2, h3, h4, h5⟩, hco⟩
    | some ids =>
      dsimp only
      split
      · exact ⟨⟨h1, h2, h3, h4, h5⟩, hco⟩
      · split
        · exact ⟨⟨h1, h2, h3, h4, h5⟩, hco⟩
        · rename_i hlen hvalid
          obtain ⟨ss, rfl, hnd, hhas, -⟩ :=
            (reorderIdsValid_iff st.maps _ []).1 (not_not.1 (by simpa using hvalid))
          rw [filterMap_id_map_some]
          have hsub : ∀ s ∈ ss, s ∈ st.order :=
            fun s hs => h4 s (alHas_iff_mem_alKeys.1 (hhas s hs))
          have hperm : ss.Perm st.order := by
            refine perm_of_nodup_subset_length hnd hsub ?_
            simpa using (not_ne_iff.1 hlen)
          refine ⟨⟨hnd, h2, ?_, ?_, h5⟩, hco⟩
          · intro id hid
            exact h3 id (hperm.mem_iff.1 hid)
          · intro id hid
            exact hperm.mem_iff.2 (h4 id hid)

theorem stateWF_setActive (conn : Option UserData) (st : BattlemapState)
    (bid : Option String) (h : stateWF st) :
    stateWF (battlemapSetActive conn st bid).2 := by
  obtain ⟨⟨h1, h2, h3, h4, h5⟩, hco⟩ := h
  unfold battlemapSetActive
  split
  · exact ⟨⟨h1, h2, h3, h4, h5⟩, hco⟩
  · split
    · exact ⟨⟨h1, h2, h3, h4, h5⟩, hco⟩
    · rename_i hcond
      rw [Bool.not_eq_true, Bool.or_eq_false_iff] at hcond
      obtain ⟨hfalsy, hhas⟩ := hcond
      refine ⟨⟨h1, h2, h3, h4, ?_⟩, hco⟩
      cases hb : bid with
      | none => trivial
      | some a =>
        rw [hb] at hhas
        dsimp only
        exact alHas_iff_mem_alKeys.1 (by simpa using hhas)

/-- C10: every battlemap mutation handler — create, delete, reorder,
rename, set-active, and the floor/cover operations — preserves the
session-state invariant: the ordered battlemap id list contains each id
exactly once, its elements are exactly the keys of the id-to-battlemap
map, and the active battlemap id is either null or one of those keys.
(The key-id coherence `idCoherent` — that each stored battlemap's `id`
field equals its map key — is carried alongside, since every handler also
preserves it; `create` additionally assumes the generated UUID is fresh.) -/
theorem C10_session_state_invariant (conn : Option UserData)
    (flags : SchemaFlags) (st : BattlemapState) (h : stateWF st) :
    (∀ payload newId imgId, newId ∉ alKeys st.maps →
      stateWF (battlemapCreate conn flags newId imgId st payload).2) ∧
    (∀ bid, stateWF (battlemapDelete conn st bid).2) ∧
    (∀ payload, stateWF (battlemapReorder conn st payload).2) ∧
    (∀ payload, stateWF (battlemapRename conn st payload).2) ∧
    (∀ bid, stateWF (battlemapSetActive conn st bid).2) ∧
    (∀ payload f, stateWF (battlemapSetActiveImage conn flags f st payload).2) ∧
    (∀ payload f1 f2, stateWF (battlemapAddImage conn flags f1 f2 st payload).2) ∧
    (∀ payload f, stateWF (battlemapRenameImage conn flags f st payload).2) ∧
    (∀ payload f, stateWF (battlemapDeleteImage conn flags f st payload).2) ∧
    (∀ payload f, stateWF (battlemapUpdateMapPath conn flags f st payload).2) ∧
    (∀ payload, stateWF (battlemapUpdateGridData conn st payload).2) ∧
    (∀ payload f1 f2, stateWF (battlemapAddCover conn flags f1 f2 st payload).2) ∧
    (∀ payload, stateWF (battlemapUpdateCover conn flags st payload).2) ∧
    (∀ payload, stateWF (battlemapRemoveCover conn flags st payload).2) :=
  ⟨fun payload newId imgId hfresh =>
      stateWF_create conn flags newId imgId st payload hfresh h,
    fun bid => stateWF_delete conn st bid h,
    fun payload => stateWF_reorder conn st payload h,
    fun payload => stateWF_rename conn st payload h,
    fun bid => stateWF_setActive conn st bid h,
    fun payload f => stateWF_setActiveImage conn flags f st payload h,
    fun payload f1 f2 => stateWF_addImage conn flags f1 f2 st payload h,
    fun payload f => stateWF_renameImage conn flags f st payload h,
    fun payload f => stateWF_deleteImage conn flags f st payload h,
    fun payload f => stateWF_updateMapPath conn flags f st payload h,
    fun payload => stateWF_updateGridData conn st payload h,
    fun payload f1 f2 => stateWF_addCover conn flags f1 f2 st payload h,
    fun payload => stateWF_updateCover conn flags st payload h,
    fun payload => stateWF_removeCover conn flags st payload h⟩

/-- Witness discharging C10's hypotheses: creating a battlemap with a
fresh id on the two-battlemap legacy fixture keeps the invariant. -/
theorem C10_session_state_invariant_witness :
    stateWF (battlemapCreate (some fixHost) fixFullFlags "b-new" "img-new"
      fixTwoFloorState (some { name := some "Arena" })).2 :=
  (C10_session_state_invariant (some fixHost) fixFullFlags fixTwoFloorState
    (by decide)).1 (some { name := some "Arena" }) "b-new" "img-new"
    (by decide)

end Daggor
